import Mathlib

/-!
Verification model of the vehicle-insights repository
(`backend/app/services/ai_service.py`, `backend/app/services/vehicle_service.py`,
`backend/app/api/routes.py`).

The embedding works at the level of the plain-data dictionaries the services
exchange (`_vehicle_to_dict` output), since all of the verified logic consumes
those dictionaries.  Python values are modelled as follows:

* `str`      -> `String` (ASCII case mapping; the verified logic only compares
                ASCII keywords),
* `int`      -> `Int` (Python integers are unbounded),
* `date`     -> `PyDate` (proleptic-Gregorian day arithmetic below),
* `datetime` -> `Int` (POSIX seconds) where arithmetic matters, and its
                `str()` rendering where only the rendered text is consumed,
* `None`literals -> `Option`,
* JSON-shaped dynamic values -> `PyVal`,
* raised exceptions -> `Except PyErr`.
-/

/-- Python exception kinds that the modelled code can raise. -/
inductive PyErr where
  | attributeError
  | typeError
  | valueError
  | overflowError
  | persistenceError
deriving DecidableEq, Repr

/-- Result of a Python float literal as parsed from JSON: an exact decimal
`m * 10 ^ e`, or one of the IEEE specials `json.loads` accepts. -/
inductive PyFloat where
  | finite (m : Int) (e : Int)
  | nan
  | inf
  | ninf
deriving DecidableEq, Repr

/-- Dynamic JSON-shaped Python value (`None`, `bool`, `int`, `float`, `str`,
`list`, `dict`); dicts keep insertion order like Python dicts. -/
inductive PyVal where
  | none
  | bool (b : Bool)
  | int (n : Int)
  | float (f : PyFloat)
  | str (s : String)
  | list (xs : List PyVal)
  | dict (kvs : List (String × PyVal))
deriving Repr

/-- Characters stripped by Python `str.strip()` with no argument. -/
def isPyWs (c : Char) : Bool :=
  c = ' ' || c = '\t' || c = '\n' || c = '\r' || c = '\x0b' || c = '\x0c'

/-- Python `str.strip()`. -/
def pyStrip (s : String) : String :=
  ⟨(s.data.dropWhile isPyWs).reverse.dropWhile isPyWs |>.reverse⟩

/-- Python `str.upper()` (ASCII; the verified comparisons are ASCII-only). -/
def pyUpper (s : String) : String := ⟨s.data.map Char.toUpper⟩

/-- Python `str.lower()` (ASCII). -/
def pyLower (s : String) : String := ⟨s.data.map Char.toLower⟩

/-- Does the second list start with the first one? -/
def seqStartsWith : List Char → List Char → Bool
  | [], _ => true
  | _ :: _, [] => false
  | a :: as, b :: bs => a = b && seqStartsWith as bs

/-- Substring containment of `needle` in `hay`, Python `needle in hay`. -/
def seqContainsAux (needle : List Char) : List Char → Bool
  | [] => seqStartsWith needle []
  | c :: rest => seqStartsWith needle (c :: rest) || seqContainsAux needle rest

/-- Python `needle in hay` on strings. -/
def strContains (hay needle : String) : Bool :=
  seqContainsAux needle.data hay.data

/-- Python `hay.startswith(needle)`. -/
def strStarts (hay needle : String) : Bool :=
  seqStartsWith needle.data hay.data

/-- Python `hay.endswith(needle)`. -/
def strEnds (hay needle : String) : Bool :=
  seqStartsWith needle.data.reverse hay.data.reverse

/-- Drop the first `n` characters of a string, Python `s[n:]`. -/
def strDrop (s : String) (n : Nat) : String := ⟨s.data.drop n⟩

/-- Drop the last `n` characters of a string, Python `s[:-n]`. -/
def strDropRight (s : String) (n : Nat) : String := ⟨s.data.take (s.data.length - n)⟩

/-- Calendar date as held by Python `datetime.date`. -/
structure PyDate where
  year : Nat
  month : Nat
  day : Nat
deriving DecidableEq, Repr

/-- Days from the civil epoch 1970-01-01 (proleptic Gregorian); this is the
day number `datetime.date` arithmetic is based on. -/
def dateToDays (d : PyDate) : Int :=
  let y : Nat := if d.month ≤ 2 then d.year - 1 else d.year
  let era : Nat := y / 400
  let yoe : Nat := y - era * 400
  let mp : Nat := if d.month > 2 then d.month - 3 else d.month + 9
  let doy : Nat := (153 * mp + 2) / 5 + d.day - 1
  let doe : Nat := yoe * 365 + yoe / 4 - yoe / 100 + doy
  (era * 146097 + doe : Int) - 719468

/-- Civil date from a day number (inverse of `dateToDays` on valid dates). -/
def dateOfDays (z : Int) : PyDate :=
  let z' : Int := z + 719468
  let era : Int := z'.fdiv 146097
  let doe : Nat := (z' - era * 146097).toNat
  let yoe : Nat := (doe - doe / 1460 + doe / 36524 - doe / 146096) / 365
  let doy : Nat := doe - (365 * yoe + yoe / 4 - yoe / 100)
  let mp : Nat := (5 * doy + 2) / 153
  let day : Nat := doy - (153 * mp + 2) / 5 + 1
  let month : Nat := if mp < 10 then mp + 3 else mp - 9
  let year : Int := (era * 400 + yoe : Int) + (if month ≤ 2 then 1 else 0)
  ⟨year.toNat, month, day⟩

/-- Python `a > b` on two `date` values (day ordering). -/
def dateGtB (a b : PyDate) : Bool := dateToDays b < dateToDays a

/-- Python `a <= b` on two `date` values. -/
def dateLeB (a b : PyDate) : Bool := dateToDays a ≤ dateToDays b

/-- Decimal rendering of `n` zero-padded on the left to `k` digits. -/
def padNum (k : Nat) (n : Nat) : String :=
  let s := toString n
  ⟨List.replicate (k - s.length) '0'⟩ ++ s

/-- Python `str(date)` / `date.isoformat()`: `YYYY-MM-DD`. -/
def isoOfDate (d : PyDate) : String :=
  padNum 4 d.year ++ "-" ++ padNum 2 d.month ++ "-" ++ padNum 2 d.day

/-- Python `datetime.isoformat()` of a UTC instant given as POSIX seconds,
without the timezone suffix (second precision). -/
def isoOfTimestamp (t : Int) : String :=
  let days : Int := t.fdiv 86400
  let secs : Nat := (t - days * 86400).toNat
  isoOfDate (dateOfDays days) ++ "T" ++ padNum 2 (secs / 3600) ++ ":" ++
    padNum 2 (secs % 3600 / 60) ++ ":" ++ padNum 2 (secs % 60)

/-- `datetime.now(timezone.utc).isoformat()` rendering used by the services. -/
def isoUtc (t : Int) : String := isoOfTimestamp t ++ "+00:00"

/-- Python `str()` of an optional `date` (`str(None) = "None"`). -/
def strOfOptDate : Option PyDate → String
  | Option.none => "None"
  | Option.some d => isoOfDate d

/-- Lookup in an insertion-ordered dict, `d.get(k)` on a dict value; on a
non-dict value the callers below never reach this (they hold dicts). -/
def pyDictGet (v : PyVal) (k : String) : Option PyVal :=
  match v with
  | .dict kvs => kvs.lookup k
  | _ => Option.none

/-- Python `d.get(k, default)`. -/
def pyDictGetD (v : PyVal) (k : String) (dflt : PyVal) : PyVal :=
  (pyDictGet v k).getD dflt

/-- Python `d[k] = val` on an assoc list: update in place if the key exists
(keeping its position, like a Python dict), else append. -/
def assocSet (kvs : List (String × PyVal)) (k : String) (val : PyVal) :
    List (String × PyVal) :=
  match kvs with
  | [] => [(k, val)]
  | (k', v') :: rest =>
    if k' = k then (k', val) :: rest else (k', v') :: assocSet rest k val

/-- Python `d[k] = val` on a dict value (identity on non-dicts, which the
modelled code never mutates). -/
def pySetKey (v : PyVal) (k : String) (val : PyVal) : PyVal :=
  match v with
  | .dict kvs => .dict (assocSet kvs k val)
  | x => x

/-- Python truthiness of a dynamic value. -/
def pyTruthy : PyVal → Bool
  | .none => false
  | .bool b => b
  | .int n => n ≠ 0
  | .float (.finite m _) => m ≠ 0
  | .float _ => true
  | .str s => s ≠ ""
  | .list xs => ¬xs.isEmpty
  | .dict kvs => ¬kvs.isEmpty

/-- Digit run as accepted by Python `int(str)`: digits with single
underscores strictly between digits.  Returns its value. -/
def pyDigitsVal : List Char → Option Nat
  | [] => Option.none
  | [c] => if c.isDigit then Option.some (c.toNat - 48) else Option.none
  | c :: '_' :: d :: rest =>
    if c.isDigit && d.isDigit then
      match pyDigitsVal (d :: rest) with
      | Option.some v =>
        Option.some ((c.toNat - 48) * 10 ^ (d :: rest).length + v)
      | Option.none => Option.none
    else Option.none
  | c :: d :: rest =>
    if c.isDigit then
      match pyDigitsVal (d :: rest) with
      | Option.some v =>
        Option.some ((c.toNat - 48) * 10 ^ (d :: rest).length + v)
      | Option.none => Option.none
    else Option.none

/-- Python `int(s)` on a string: optional surrounding whitespace, optional
sign, digit run.  `Option.none` models the `ValueError` path. -/
def pyIntParse (s : String) : Option Int :=
  match (pyStrip s).data with
  | '-' :: rest => (pyDigitsVal rest).map (fun n => -(n : Int))
  | '+' :: rest => (pyDigitsVal rest).map (fun n => (n : Int))
  | rest => (pyDigitsVal rest).map (fun n => (n : Int))

/-- Python `int(x)` on a dynamic value as used by `_check_has_issues`:
`.ok (some n)` on success, `.ok none` when the raised error is one of the
caught `ValueError`/`TypeError`, `.error` for the uncaught `OverflowError`
on infinities. -/
def pyIntConv : PyVal → Except PyErr (Option Int)
  | .int n => .ok (Option.some n)
  | .bool b => .ok (Option.some (if b then 1 else 0))
  | .float (.finite m e) =>
    .ok (Option.some (if 0 ≤ e then m * 10 ^ e.toNat else Int.tdiv m (10 ^ (-e).toNat)))
  | .float .nan => .ok Option.none
  | .float .inf => .error .overflowError
  | .float .ninf => .error .overflowError
  | .str s => .ok (pyIntParse s)
  | .none => .ok Option.none
  | .list _ => .ok Option.none
  | .dict _ => .ok Option.none

/-! ### JSON (`json.loads` / `json.dumps`) -/

/-- JSON whitespace accepted between tokens by `json.loads`. -/
def jsonSkipWs (cs : List Char) : List Char :=
  cs.dropWhile (fun c => c = ' ' || c = '\t' || c = '\n' || c = '\r')

/-- Hex digit value. -/
def jsonHexDigit (c : Char) : Option Nat :=
  if c.isDigit then Option.some (c.toNat - 48)
  else if 'a' ≤ c ∧ c ≤ 'f' then Option.some (c.toNat - 87)
  else if 'A' ≤ c ∧ c ≤ 'F' then Option.some (c.toNat - 55)
  else Option.none

/-- Value of a 4-hex-digit escape. -/
def jsonHex4 (a b c d : Char) : Option Nat := do
  let x1 ← jsonHexDigit a
  let x2 ← jsonHexDigit b
  let x3 ← jsonHexDigit c
  let x4 ← jsonHexDigit d
  pure (((x1 * 16 + x2) * 16 + x3) * 16 + x4)

/-- JSON string body after the opening quote, scanned into UTF-16-style code
units (`\uXXXX` escapes are kept verbatim, including surrogates); returns the
units and the input remaining after the closing quote. -/
def jsonParseStrUnits : List Char → Option (List Nat × List Char)
  | [] => Option.none
  | '"' :: rest => Option.some ([], rest)
  | '\\' :: 'u' :: a :: b :: c :: d :: rest =>
    match jsonHex4 a b c d with
    | Option.none => Option.none
    | Option.some n => (jsonParseStrUnits rest).map (fun p => (n :: p.1, p.2))
  | '\\' :: e :: rest =>
    match e with
    | '"' => (jsonParseStrUnits rest).map (fun p => (34 :: p.1, p.2))
    | '\\' => (jsonParseStrUnits rest).map (fun p => (92 :: p.1, p.2))
    | '/' => (jsonParseStrUnits rest).map (fun p => (47 :: p.1, p.2))
    | 'b' => (jsonParseStrUnits rest).map (fun p => (8 :: p.1, p.2))
    | 'f' => (jsonParseStrUnits rest).map (fun p => (12 :: p.1, p.2))
    | 'n' => (jsonParseStrUnits rest).map (fun p => (10 :: p.1, p.2))
    | 'r' => (jsonParseStrUnits rest).map (fun p => (13 :: p.1, p.2))
    | 't' => (jsonParseStrUnits rest).map (fun p => (9 :: p.1, p.2))
    | _ => Option.none
  | c :: rest =>
    if c.toNat < 0x20 then Option.none
    else (jsonParseStrUnits rest).map (fun p => (c.toNat :: p.1, p.2))

/-- Combine surrogate pairs among code units into characters.  A lone
surrogate (which Python would keep as a surrogate code unit) is modelled as
U+0000 via `Char.ofNat`; no verified property depends on it. -/
def combineUnits : List Nat → List Char
  | [] => []
  | [u] => [Char.ofNat u]
  | u :: l :: rest =>
    if 0xD800 ≤ u ∧ u ≤ 0xDBFF ∧ 0xDC00 ≤ l ∧ l ≤ 0xDFFF then
      Char.ofNat (0x10000 + (u - 0xD800) * 0x400 + (l - 0xDC00)) :: combineUnits rest
    else Char.ofNat u :: combineUnits (l :: rest)

/-- Decoded JSON string body after the opening quote. -/
def jsonParseStrAux (cs : List Char) : Option (List Char × List Char) :=
  (jsonParseStrUnits cs).map (fun p => (combineUnits p.1, p.2))

/-- Match a literal continuation such as `ull` after `n`. -/
def jsonExpectLit (lit : String) (cs : List Char) (v : PyVal) :
    Option (PyVal × List Char) :=
  if seqStartsWith lit.data cs then Option.some (v, cs.drop lit.data.length)
  else Option.none

/-- Numeric value of a digit run. -/
def digitsToNat (cs : List Char) : Nat :=
  cs.foldl (fun a c => a * 10 + (c.toNat - 48)) 0

/-- JSON number per the `json` module grammar
`-?(0|[1-9][0-9]*)(\.[0-9]+)?([eE][+-]?[0-9]+)?`; a fraction or exponent
makes it a float, otherwise an int. -/
def jsonParseNum (cs : List Char) : Option (PyVal × List Char) :=
  let (neg, cs1) : Bool × List Char :=
    match cs with
    | '-' :: r => (true, r)
    | r => (false, r)
  let intDigits := cs1.takeWhile Char.isDigit
  if intDigits.isEmpty then Option.none
  else if intDigits.length > 1 ∧ intDigits.headD '0' = '0' then Option.none
  else
    let rest1 := cs1.drop intDigits.length
    let (fracDigits, rest2) : List Char × List Char :=
      match rest1 with
      | '.' :: r =>
        let ds := r.takeWhile Char.isDigit
        if ds.isEmpty then ([], rest1) else (ds, r.drop ds.length)
      | _ => ([], rest1)
    let (expVal, hasExp, rest3) : Int × Bool × List Char :=
      match rest2 with
      | e :: r =>
        if e = 'e' ∨ e = 'E' then
          let (esign, r1) : Bool × List Char :=
            match r with
            | '-' :: rr => (true, rr)
            | '+' :: rr => (false, rr)
            | rr => (false, rr)
          let ds := r1.takeWhile Char.isDigit
          if ds.isEmpty then (0, false, rest2)
          else
            let v : Int := digitsToNat ds
            (if esign then -v else v, true, r1.drop ds.length)
        else (0, false, rest2)
      | _ => (0, false, rest2)
    let mantNat : Nat := digitsToNat (intDigits ++ fracDigits)
    let mant : Int := if neg then -(mantNat : Int) else (mantNat : Int)
    if fracDigits.isEmpty ∧ ¬hasExp then Option.some (.int mant, rest1)
    else Option.some (.float (.finite mant (expVal - fracDigits.length)), rest3)

mutual

/-- JSON value (fuel-indexed recursive descent mirroring `json.loads`,
including the `NaN`/`Infinity`/`-Infinity` extensions Python accepts). -/
def jsonParseVal : Nat → List Char → Option (PyVal × List Char)
  | 0, _ => Option.none
  | fuel + 1, cs =>
    match jsonSkipWs cs with
    | [] => Option.none
    | 'n' :: rest => jsonExpectLit "ull" rest .none
    | 't' :: rest => jsonExpectLit "rue" rest (.bool true)
    | 'f' :: rest => jsonExpectLit "alse" rest (.bool false)
    | 'N' :: rest => jsonExpectLit "aN" rest (.float .nan)
    | 'I' :: rest => jsonExpectLit "nfinity" rest (.float .inf)
    | '"' :: rest => (jsonParseStrAux rest).map (fun p => (.str ⟨p.1⟩, p.2))
    | '-' :: 'I' :: rest => jsonExpectLit "nfinity" rest (.float .ninf)
    | '[' :: rest => jsonParseArr fuel rest
    | '{' :: rest => jsonParseObj fuel rest
    | c :: rest =>
      if c.isDigit ∨ c = '-' then jsonParseNum (c :: rest) else Option.none

/-- Array body after `[`. -/
def jsonParseArr : Nat → List Char → Option (PyVal × List Char)
  | 0, _ => Option.none
  | fuel + 1, cs =>
    match jsonSkipWs cs with
    | ']' :: rest => Option.some (.list [], rest)
    | cs' => jsonParseArrElems fuel cs' []

/-- Array elements, at least one. -/
def jsonParseArrElems : Nat → List Char → List PyVal → Option (PyVal × List Char)
  | 0, _, _ => Option.none
  | fuel + 1, cs, acc =>
    match jsonParseVal fuel cs with
    | Option.none => Option.none
    | Option.some (v, rest) =>
      match jsonSkipWs rest with
      | ',' :: r2 => jsonParseArrElems fuel r2 (acc ++ [v])
      | ']' :: r2 => Option.some (.list (acc ++ [v]), r2)
      | _ => Option.none

/-- Object body after `{`. -/
def jsonParseObj : Nat → List Char → Option (PyVal × List Char)
  | 0, _ => Option.none
  | fuel + 1, cs =>
    match jsonSkipWs cs with
    | '}' :: rest => Option.some (.dict [], rest)
    | cs' => jsonParseObjMembers fuel cs' []

/-- Object members, at least one; duplicate keys overwrite in place like a
Python dict built from pairs. -/
def jsonParseObjMembers : Nat → List Char → List (String × PyVal) →
    Option (PyVal × List Char)
  | 0, _, _ => Option.none
  | fuel + 1, cs, acc =>
    match jsonSkipWs cs with
    | '"' :: rest =>
      match jsonParseStrAux rest with
      | Option.none => Option.none
      | Option.some (kcs, r1) =>
        match jsonSkipWs r1 with
        | ':' :: r2 =>
          match jsonParseVal fuel r2 with
          | Option.none => Option.none
          | Option.some (v, r3) =>
            match jsonSkipWs r3 with
            | ',' :: r4 => jsonParseObjMembers fuel r4 (assocSet acc ⟨kcs⟩ v)
            | '}' :: r4 => Option.some (.dict (assocSet acc ⟨kcs⟩ v), r4)
            | _ => Option.none
        | _ => Option.none
    | _ => Option.none

end

/-- Python `json.loads`: parse one value, allow surrounding whitespace,
reject trailing data.  `Option.none` models `json.JSONDecodeError`.  The
fuel covers every input: along any call chain of the mutual parser at most
three fuel units are spent per consumed input character (the worst cycle is
value → array → elements → value, which consumes the `[`), so `3·|s| + 8`
can never run out on a parse the fuel-free grammar would complete. -/
def jsonLoads (s : String) : Option PyVal :=
  match jsonParseVal (3 * s.data.length + 8) s.data with
  | Option.some (v, rest) =>
    if (jsonSkipWs rest).isEmpty then Option.some v else Option.none
  | Option.none => Option.none

/-- Fixed-width lowercase-hex rendering (`k` digits, most significant
first). -/
def toHexFixed : Nat → Nat → String
  | 0, _ => ""
  | k + 1, n =>
    toHexFixed k (n / 16) ++ ⟨[(("0123456789abcdef".data).get? (n % 16)).getD '0']⟩

/-- One character escaped as `json.dumps` (`ensure_ascii=True`) renders it. -/
def jEscapeChar (c : Char) : String :=
  if c = '"' then "\\\""
  else if c = '\\' then "\\\\"
  else if c = '\n' then "\\n"
  else if c = '\t' then "\\t"
  else if c = '\r' then "\\r"
  else if c = '\x08' then "\\b"
  else if c = '\x0c' then "\\f"
  else if c.toNat < 0x20 then "\\u" ++ toHexFixed 4 c.toNat
  else if c.toNat < 0x7f then ⟨[c]⟩
  else if c.toNat < 0x10000 then "\\u" ++ toHexFixed 4 c.toNat
  else
    "\\u" ++ toHexFixed 4 (0xD800 + (c.toNat - 0x10000) / 0x400) ++
    "\\u" ++ toHexFixed 4 (0xDC00 + (c.toNat - 0x10000) % 0x400)

/-- String body escaped as `json.dumps` renders it. -/
def jEscape (s : String) : String := String.join (s.data.map jEscapeChar)

/-- A JSON string literal as `json.dumps` renders it. -/
def jString (s : String) : String := "\"" ++ jEscape s ++ "\""

/-- Float rendering for `json.dumps`; only stored opaquely (no verified
property reads stored float text back). -/
def pyFloatRepr : PyFloat → String
  | .finite m e => toString m ++ "e" ++ toString e
  | .nan => "NaN"
  | .inf => "Infinity"
  | .ninf => "-Infinity"

mutual

/-- Python `json.dumps(v)` with default separators and key order preserved
(insertion order, `sort_keys=False`). -/
def pyDumps : PyVal → String
  | .none => "null"
  | .bool true => "true"
  | .bool false => "false"
  | .int n => toString n
  | .float f => pyFloatRepr f
  | .str s => jString s
  | .list xs => "[" ++ String.intercalate ", " (pyDumpsList xs) ++ "]"
  | .dict kvs => "\x7b" ++ String.intercalate ", " (pyDumpsKvs kvs) ++ "\x7d"

/-- Renderings of the elements of a JSON array. -/
def pyDumpsList : List PyVal → List String
  | [] => []
  | x :: rest => pyDumps x :: pyDumpsList rest

/-- Renderings of the members of a JSON object. -/
def pyDumpsKvs : List (String × PyVal) → List String
  | [] => []
  | (k, v) :: rest => (jString k ++ ": " ++ pyDumps v) :: pyDumpsKvs rest

end

/-! ### Vehicle aggregate at the `_vehicle_to_dict` level

Float-typed columns whose values are only ever rendered into prompt/fallback
text are modelled by their `str()` rendering; date/datetime columns by
`PyDate`/`Option String` as explained in the header. -/

/-- `basic` sub-dictionary of `_vehicle_to_dict`. -/
structure BasicInfo where
  id : Int
  vin : Option String
  vrm : Option String
  make : Option String
  model : Option String
  variant : Option String
  year : Option Int
  registration_date : Option PyDate
  engine_size : Option String
  fuel_type : Option String
  transmission : Option String
  body_type : Option String
  doors : Option Int
  seats : Option Int
  engine_power_hp : Option Int
  engine_power_kw : Option Int
  co2_emissions : Option String
  fuel_consumption_combined : Option String
  vehicle_status : Option String
  mot_status : Option String
  mot_expiry_date : Option PyDate
  tax_status : Option String
  tax_due_date : Option PyDate
  insurance_group : Option String
  euro_status : Option String
  vehicle_class : Option String
  created_at : Option String
  updated_at : Option String
deriving DecidableEq, Repr

/-- One `valuations` element. -/
structure ValuationRecord where
  valuation_date : Option PyDate
  retail_value : Option String
  trade_value : Option String
  private_value : Option String
  auction_value : Option String
  mileage_at_valuation : Option Int
  condition_grade : Option String
  valuation_source : Option String
  confidence_score : Option String
  regional_adjustment : Option String
deriving DecidableEq, Repr

/-- One `history` element. -/
structure HistoryRecord where
  event_date : Option PyDate
  event_type : Option String
  event_description : Option String
  mileage : Option Int
  location : Option String
  source : Option String
  pass_fail : Option String
  advisory_notes : Option String
  cost : Option String
deriving DecidableEq, Repr

/-- One `recalls` element. -/
structure RecallRecord where
  recall_number : Option String
  recall_date : Option PyDate
  recall_title : Option String
  recall_description : Option String
  safety_issue : Option Bool
  recall_status : Option String
  completion_date : Option PyDate
  issuing_authority : Option String
  manufacturer_campaign : Option String
deriving DecidableEq, Repr

/-- One `ownership_history` element (`change_type` is the enum `.value`). -/
structure OwnershipRecord where
  change_date : Option PyDate
  change_type : Option String
  previous_owner_type : Option String
  new_owner_type : Option String
  previous_owner_postcode : Option String
  new_owner_postcode : Option String
  mileage_at_change : Option Int
  sale_price : Option String
  source : Option String
deriving DecidableEq, Repr

/-- One `theft_records` element (`current_status` is the enum `.value`). -/
structure TheftRecord where
  theft_date : Option PyDate
  recovery_date : Option PyDate
  theft_location_postcode : Option String
  recovery_location_postcode : Option String
  theft_circumstances : Option String
  recovery_condition : Option String
  police_reference : Option String
  insurance_claim_reference : Option String
  current_status : Option String
deriving DecidableEq, Repr

/-- One `insurance_claims` element. -/
structure InsuranceClaim where
  claim_date : Option PyDate
  claim_type : Option String
  claim_amount : Option String
  settlement_amount : Option String
  incident_location_postcode : Option String
  fault_claim : Option Bool
  total_loss : Option Bool
  mileage_at_incident : Option Int
  description : Option String
  insurer : Option String
  claim_reference : Option String
deriving DecidableEq, Repr

/-- One `mileage_records` element. -/
structure MileageRecord where
  reading_date : Option PyDate
  mileage : Option Int
  source : Option String
  verified : Option Bool
  discrepancy_flag : Option Bool
  previous_mileage : Option Int
deriving DecidableEq, Repr

/-- One `finance_records` element. -/
structure FinanceRecord where
  finance_start_date : Option PyDate
  finance_end_date : Option PyDate
  finance_type : Option String
  finance_company : Option String
  settlement_figure : Option String
  monthly_payment : Option String
  outstanding_finance : Option Bool
  settlement_date : Option PyDate
deriving DecidableEq, Repr

/-- One `auction_records` element. -/
structure AuctionRecord where
  auction_date : Option PyDate
  auction_house : Option String
  lot_number : Option String
  guide_price_low : Option String
  guide_price_high : Option String
  hammer_price : Option String
  sold : Option Bool
  seller_type : Option String
  condition_grade : Option String
  mileage_at_auction : Option Int
deriving DecidableEq, Repr

/-- The full `_vehicle_to_dict` dictionary.  The `specifications` dictionary
contents are never consumed by the verified logic, so only its presence
(`dict` vs `None`) is modelled. -/
structure VehicleData where
  basic : BasicInfo
  valuations : List ValuationRecord
  history : List HistoryRecord
  recalls : List RecallRecord
  specifications : Option Unit
  ownership_history : List OwnershipRecord
  theft_records : List TheftRecord
  insurance_claims : List InsuranceClaim
  mileage_records : List MileageRecord
  finance_records : List FinanceRecord
  auction_records : List AuctionRecord
deriving DecidableEq, Repr

/-! ### SHA-256 (`hashlib.sha256(...).hexdigest()`), FIPS 180-4 over `Nat`
words reduced mod `2^32`. -/

/-- Reduce to a 32-bit word. -/
def w32 (n : Nat) : Nat := n % 4294967296

/-- Rotate a 32-bit word right by `n`. -/
def rotr32 (n x : Nat) : Nat := w32 ((x >>> n) ||| (x <<< (32 - n)))

/-- 32-bit complement. -/
def bnot32 (x : Nat) : Nat := x ^^^ 4294967295

/-- Big sigma 0. -/
def bsig0 (x : Nat) : Nat := rotr32 2 x ^^^ rotr32 13 x ^^^ rotr32 22 x

/-- Big sigma 1. -/
def bsig1 (x : Nat) : Nat := rotr32 6 x ^^^ rotr32 11 x ^^^ rotr32 25 x

/-- Small sigma 0. -/
def ssig0 (x : Nat) : Nat := rotr32 7 x ^^^ rotr32 18 x ^^^ (x >>> 3)

/-- Small sigma 1. -/
def ssig1 (x : Nat) : Nat := rotr32 17 x ^^^ rotr32 19 x ^^^ (x >>> 10)

/-- SHA-256 round constants. -/
def shaK : List Nat :=
  [1116352408, 1899447441, 3049323471, 3921009573, 961987163, 1508970993,
   2453635748, 2870763221, 3624381080, 310598401, 607225278, 1426881987,
   1925078388, 2162078206, 2614888103, 3248222580, 3835390401, 4022224774,
   264347078, 604807628, 770255983, 1249150122, 1555081692, 1996064986,
   2554220882, 2821834349, 2952996808, 3210313671, 3336571891, 3584528711,
   113926993, 338241895, 666307205, 773529912, 1294757372, 1396182291,
   1695183700, 1986661051, 2177026350, 2456956037, 2730485921, 2820302411,
   3259730800, 3345764771, 3516065817, 3600352804, 4094571909, 275423344,
   430227734, 506948616, 659060556, 883997877, 958139571, 1322822218,
   1537002063, 1747873779, 1955562222, 2024104815, 2227730452, 2361852424,
   2428436474, 2756734187, 3204031479, 3329325298]

/-- SHA-256 working state. -/
structure Hash8 where
  a : Nat
  b : Nat
  c : Nat
  d : Nat
  e : Nat
  f : Nat
  g : Nat
  h : Nat
deriving DecidableEq, Repr

/-- SHA-256 initial state. -/
def shaInit : Hash8 :=
  ⟨1779033703, 3144134277, 1013904242, 2773480762,
   1359893119, 2600822924, 528734635, 1541459225⟩

/-- Big-endian bytes of a block as 32-bit words, 4 bytes per word. -/
def bytesToWords : List Nat → List Nat
  | b0 :: b1 :: b2 :: b3 :: rest =>
    (((b0 * 256 + b1) * 256 + b2) * 256 + b3) :: bytesToWords rest
  | _ => []

/-- Message-schedule extension of the first 16 words to 64. -/
def extendW (w0 : Array Nat) : Array Nat :=
  (List.range 48).foldl
    (fun w i =>
      w.push (w32 (ssig1 (w.getD (i + 14) 0) + w.getD (i + 9) 0 +
        ssig0 (w.getD (i + 1) 0) + w.getD i 0)))
    w0

/-- One compression round. -/
def shaRound (wArr : Array Nat) (st : Hash8) (i : Nat) : Hash8 :=
  let ch := (st.e &&& st.f) ^^^ (bnot32 st.e &&& st.g)
  let maj := (st.a &&& st.b) ^^^ (st.a &&& st.c) ^^^ (st.b &&& st.c)
  let t1 := w32 (st.h + bsig1 st.e + ch + (shaK.getD i 0) + wArr.getD i 0)
  let t2 := w32 (bsig0 st.a + maj)
  ⟨w32 (t1 + t2), st.a, st.b, st.c, w32 (st.d + t1), st.e, st.f, st.g⟩

/-- Compress one 64-byte block into the state. -/
def compressBlock (st : Hash8) (block : List Nat) : Hash8 :=
  let wArr := extendW (bytesToWords block).toArray
  let r := (List.range 64).foldl (shaRound wArr) st
  ⟨w32 (st.a + r.a), w32 (st.b + r.b), w32 (st.c + r.c), w32 (st.d + r.d),
   w32 (st.e + r.e), w32 (st.f + r.f), w32 (st.g + r.g), w32 (st.h + r.h)⟩

/-- Big-endian `k`-byte rendering of `n`. -/
def beBytes : Nat → Nat → List Nat
  | 0, _ => []
  | k + 1, n => beBytes k (n / 256) ++ [n % 256]

/-- SHA-256 padding: `0x80`, zeros to 56 mod 64, 8-byte bit length. -/
def padMsg (msg : List Nat) : List Nat :=
  msg ++ 0x80 :: List.replicate ((119 - msg.length % 64) % 64) 0 ++
    beBytes 8 (8 * msg.length)

/-- Fold the padded message block by block (`fuel` = number of blocks). -/
def sha256Blocks : Hash8 → List Nat → Nat → Hash8
  | st, _, 0 => st
  | st, bytes, k + 1 => sha256Blocks (compressBlock st (bytes.take 64)) (bytes.drop 64) k

/-- SHA-256 state of a byte message. -/
def sha256 (msg : List Nat) : Hash8 :=
  sha256Blocks shaInit (padMsg msg) ((padMsg msg).length / 64)

/-- UTF-8 bytes of one character. -/
def utf8Char (c : Char) : List Nat :=
  let n := c.toNat
  if n < 0x80 then [n]
  else if n < 0x800 then [0xC0 + n / 64, 0x80 + n % 64]
  else if n < 0x10000 then [0xE0 + n / 4096, 0x80 + n / 64 % 64, 0x80 + n % 64]
  else [0xF0 + n / 262144, 0x80 + n / 4096 % 64, 0x80 + n / 64 % 64, 0x80 + n % 64]

/-- UTF-8 bytes of a string (`s.encode("utf-8")`). -/
def utf8Bytes (s : String) : List Nat := (s.data.map utf8Char).flatten

/-- Lowercase-hex rendering of the final state (`hexdigest()`). -/
def hash8hex (st : Hash8) : String :=
  toHexFixed 8 st.a ++ toHexFixed 8 st.b ++ toHexFixed 8 st.c ++ toHexFixed 8 st.d ++
  toHexFixed 8 st.e ++ toHexFixed 8 st.f ++ toHexFixed 8 st.g ++ toHexFixed 8 st.h

/-- `hashlib.sha256(s.encode("utf-8")).hexdigest()`. -/
def sha256hex (s : String) : String := hash8hex (sha256 (utf8Bytes s))

/-! ### Fingerprint engine (`VehicleAIService.calculate_data_hash`) and
staleness rule (`should_regenerate_insights`) -/

/-- Python `str()` of an optional string (`str(None) = "None"`; the stored
`datetime` columns are modelled by their rendering). -/
def strOfOptStr : Option String → String
  | Option.none => "None"
  | Option.some s => s

/-- Python `max(records, key=lambda x: x.get('reading_date', date.min))`
over a non-empty list: the first record attaining the maximal date wins;
comparing a missing (`None`) `reading_date` with anything raises
`TypeError`, exactly as Python's `None > date` does.  (The `date.min`
default is dead: the key is always present in `_vehicle_to_dict` output,
possibly holding `None`.) -/
def pyMaxByReadingDate (best : MileageRecord) :
    List MileageRecord → Except PyErr MileageRecord
  | [] => .ok best
  | r :: rest =>
    match r.reading_date, best.reading_date with
    | Option.some da, Option.some db =>
      pyMaxByReadingDate (if dateGtB da db then r else best) rest
    | _, _ => .error .typeError

/-- Python `max(xs)` over a non-empty int list, with `default=None` for the
empty one. -/
def pyMaxIntList : List Int → Option Int
  | [] => Option.none
  | x :: xs => Option.some (xs.foldl max x)

/-- The `latest_mileage` computation of `calculate_data_hash`: the latest
mileage reading when any exists, else the maximum non-`None` mileage over
history records, else `None`. -/
def latestMileage (v : VehicleData) : Except PyErr (Option Int) :=
  match v.mileage_records with
  | m :: ms => (pyMaxByReadingDate m ms).map (fun r => r.mileage)
  | [] =>
    if v.history.isEmpty then .ok Option.none
    else .ok (pyMaxIntList (v.history.filterMap (fun h => h.mileage)))

/-- The `basic` sub-object of the fingerprint's normalized projection. -/
structure HashBasic where
  vin : Option String
  vrm : Option String
  year : Option Int
  mileage : Option Int
  mot_status : Option String
  mot_expiry_date : String
  vehicle_status : Option String
deriving DecidableEq, Repr

/-- The normalized projection (`hash_input` dictionary) that is serialized
and hashed. -/
structure HashInput where
  basic : HashBasic
  history_count : Nat
  valuations_count : Nat
  recalls_count : Nat
  last_recall_status : Option String
  ownership_changes_count : Nat
  theft_records_count : Nat
  last_theft_status : Option String
  insurance_claims_count : Nat
  last_claim_total_loss : Option Bool
  mileage_records_count : Nat
  finance_records_count : Nat
  last_finance_outstanding : Option Bool
  auction_records_count : Nat
  last_auction_sold : Option Bool
  db_updated_at : String
deriving DecidableEq, Repr

/-- Build the `hash_input` projection given the already-computed
`latest_mileage` value. -/
def hashInputWith (v : VehicleData) (latest : Option Int) : HashInput :=
  { basic :=
      { vin := v.basic.vin
        vrm := v.basic.vrm
        year := v.basic.year
        mileage := latest
        mot_status := v.basic.mot_status
        mot_expiry_date := strOfOptDate v.basic.mot_expiry_date
        vehicle_status := v.basic.vehicle_status }
    history_count := v.history.length
    valuations_count := v.valuations.length
    recalls_count := v.recalls.length
    last_recall_status := v.recalls.getLast?.bind (fun r => r.recall_status)
    ownership_changes_count := v.ownership_history.length
    theft_records_count := v.theft_records.length
    last_theft_status := v.theft_records.getLast?.bind (fun t => t.current_status)
    insurance_claims_count := v.insurance_claims.length
    last_claim_total_loss := v.insurance_claims.getLast?.bind (fun c => c.total_loss)
    mileage_records_count := v.mileage_records.length
    finance_records_count := v.finance_records.length
    last_finance_outstanding := v.finance_records.getLast?.bind (fun f => f.outstanding_finance)
    auction_records_count := v.auction_records.length
    last_auction_sold := v.auction_records.getLast?.bind (fun a => a.sold)
    db_updated_at := strOfOptStr v.basic.updated_at }

/-- The normalized projection of an aggregate (raises exactly when the
`latest_mileage` computation does). -/
def hashInputExc (v : VehicleData) : Except PyErr HashInput :=
  (latestMileage v).map (hashInputWith v)

/-- JSON rendering of an optional string value. -/
def jOptStr : Option String → String
  | Option.none => "null"
  | Option.some s => jString s

/-- JSON rendering of an optional int value. -/
def jOptInt : Option Int → String
  | Option.none => "null"
  | Option.some n => toString n

/-- JSON rendering of an optional bool value. -/
def jOptBool : Option Bool → String
  | Option.none => "null"
  | Option.some true => "true"
  | Option.some false => "false"

/-- `json.dumps(hash_input, sort_keys=True, default=str)`: keys in sorted
order, default separators. -/
def serializeHashInput (i : HashInput) : String :=
  "\x7b\"auction_records_count\": " ++ toString i.auction_records_count ++
  ", \"basic\": \x7b\"mileage\": " ++ jOptInt i.basic.mileage ++
  ", \"mot_expiry_date\": " ++ jString i.basic.mot_expiry_date ++
  ", \"mot_status\": " ++ jOptStr i.basic.mot_status ++
  ", \"vehicle_status\": " ++ jOptStr i.basic.vehicle_status ++
  ", \"vin\": " ++ jOptStr i.basic.vin ++
  ", \"vrm\": " ++ jOptStr i.basic.vrm ++
  ", \"year\": " ++ jOptInt i.basic.year ++
  "\x7d, \"db_updated_at\": " ++ jString i.db_updated_at ++
  ", \"finance_records_count\": " ++ toString i.finance_records_count ++
  ", \"history_count\": " ++ toString i.history_count ++
  ", \"insurance_claims_count\": " ++ toString i.insurance_claims_count ++
  ", \"last_auction_sold\": " ++ jOptBool i.last_auction_sold ++
  ", \"last_claim_total_loss\": " ++ jOptBool i.last_claim_total_loss ++
  ", \"last_finance_outstanding\": " ++ jOptBool i.last_finance_outstanding ++
  ", \"last_recall_status\": " ++ jOptStr i.last_recall_status ++
  ", \"last_theft_status\": " ++ jOptStr i.last_theft_status ++
  ", \"mileage_records_count\": " ++ toString i.mileage_records_count ++
  ", \"ownership_changes_count\": " ++ toString i.ownership_changes_count ++
  ", \"recalls_count\": " ++ toString i.recalls_count ++
  ", \"theft_records_count\": " ++ toString i.theft_records_count ++
  ", \"valuations_count\": " ++ toString i.valuations_count ++ "\x7d"

/-- Digest of a normalized projection. -/
def digestOfInput (i : HashInput) : String := sha256hex (serializeHashInput i)

/-- `VehicleAIService.calculate_data_hash`. -/
def calculateDataHash (v : VehicleData) : Except PyErr String :=
  (latestMileage v).map (fun m => digestOfInput (hashInputWith v m))

/-- One `vehicle_ai_summaries` row (`VehicleAISummary`).  `generated_at`
is POSIX seconds (timezone normalization in the source maps naive stored
values to UTC, which the absolute-seconds model absorbs). -/
structure CacheEntry where
  vehicle_id : Int
  search_key : Option String
  insights_json : Option String
  has_issues : Bool
  needs_attention : Bool
  generated_at : Option Int
  llm_model_version : Option String
  data_hash : Option String
deriving DecidableEq, Repr

/-- `VehicleAIService.should_regenerate_insights`.  The `hasattr` guard in
the source is always satisfied by ORM rows (the columns exist, possibly
NULL), so it is not a separate branch here: a NULL fingerprint falls into
the hash-mismatch branch exactly as in Python (`str != None` is true), and
a NULL `generated_at` reached after a hash match raises `AttributeError`
(`None.tzinfo`).  `cache_age.days` is `timedelta.days`, i.e. floor
division of the age in seconds by 86400. -/
def shouldRegenerate (cached : Option CacheEntry) (v : VehicleData) (now : Int) :
    Except PyErr Bool :=
  match cached with
  | Option.none => .ok true
  | Option.some e => do
    let current ← calculateDataHash v
    if e.data_hash ≠ Option.some current then .ok true
    else
      match e.generated_at with
      | Option.none => .error .attributeError
      | Option.some g =>
        if (now - g).fdiv 86400 > 30 then .ok true else .ok false

/-! ### Narrative generator (`VehicleInsightsOutputParser.parse`,
`generate_vehicle_insights`, `_get_fallback_insights`) -/

/-- The degraded artifact `VehicleInsightsOutputParser.parse` builds when
JSON parsing fails. -/
def degradedArtifact (text : String) : PyVal :=
  .dict
    [("summary", .str ("Error: AI could not generate a structured summary. The raw output was: " ++ text)),
     ("key_insights", .list []),
     ("owner_advice", .str ""),
     ("reliability_assessment", .dict [("score", .str "N/A"), ("explanation", .str "Data parsing error")]),
     ("value_assessment", .dict [("current_market_position", .str "N/A"), ("factors_affecting_value", .str "Data parsing error")]),
     ("attention_items", .list [.str "Data parsing error"]),
     ("cost_insights", .dict [("typical_maintenance", .str "N/A"), ("insurance_notes", .str "N/A"), ("fuel_efficiency", .str "N/A")]),
     ("technical_highlights", .list []),
     ("error_parsing", .bool true)]

/-- The fence-stripping of `VehicleInsightsOutputParser.parse`: strip, drop
a leading triple-backtick-`json` tag, drop a trailing triple backtick,
strip again (the second strip is the one inside `json.loads(clean.strip())`). -/
def cleanText (text : String) : String :=
  let c := pyStrip text
  let c := if strStarts c "```json" then strDrop c 7 else c
  let c := if strEnds c "```" then strDropRight c 3 else c
  pyStrip c

/-- `VehicleInsightsOutputParser.parse`: parsed JSON on success, the
degraded artifact embedding the raw text on `json.JSONDecodeError`. -/
def insightsOutputParse (text : String) : PyVal :=
  match jsonLoads (cleanText text) with
  | Option.some v => v
  | Option.none => degradedArtifact text

/-- Python `str()` of an optional int as an f-string renders it. -/
def strOfOptInt : Option Int → String
  | Option.none => "None"
  | Option.some n => toString n

/-- `VehicleAIService._get_fallback_insights` (the `basic` keys are always
present in `_vehicle_to_dict` output, so the `.get` defaults are dead and a
stored `None` renders as `"None"`). -/
def fallbackInsights (now : Int) (v : VehicleData) : PyVal :=
  .dict
    [("summary", .str ("This is a " ++ strOfOptInt v.basic.year ++ " " ++
        strOfOptStr v.basic.make ++ " " ++ strOfOptStr v.basic.model ++
        ". We encountered an issue generating detailed AI insights at this time. Basic vehicle data is still available.")),
     ("key_insights", .list
       [.str "Vehicle information was retrieved from records.",
        .str "Detailed AI-powered analysis is temporarily unavailable.",
        .str "Please refer to the 'detailed_data' section for raw vehicle information."]),
     ("owner_advice", .str "Consult the detailed vehicle data sections for specific information regarding your vehicle including ownership, finance, theft, and insurance. For AI insights, please try again later."),
     ("reliability_assessment", .dict
       [("score", .str "N/A"),
        ("explanation", .str "AI reliability assessment is currently unavailable.")]),
     ("value_assessment", .dict
       [("current_market_position", .str "AI value assessment is currently unavailable. See 'detailed_data' for any valuation records."),
        ("factors_affecting_value", .str "Standard factors like age, mileage, condition, service history, ownership, finance, theft and claims typically affect value.")]),
     ("attention_items", .list
       [.str "Check 'detailed_data' for MOT/Tax due dates and any recall, finance, or theft information."]),
     ("cost_insights", .dict
       [("typical_maintenance", .str "AI cost insights are unavailable. Refer to service history in 'detailed_data'."),
        ("insurance_notes", .str ("Insurance group: " ++ strOfOptStr v.basic.insurance_group ++ ". Check 'detailed_data'.")),
        ("fuel_efficiency", .str ("Fuel type: " ++ strOfOptStr v.basic.fuel_type ++ ". CO2 emissions: " ++ strOfOptStr v.basic.co2_emissions ++ " g/km. Check 'detailed_data'."))]),
     ("technical_highlights", .list
       [.str ("Engine: " ++ strOfOptStr v.basic.engine_size ++ "L " ++ strOfOptStr v.basic.fuel_type),
        .str ("Transmission: " ++ strOfOptStr v.basic.transmission),
        .str ("Body Type: " ++ strOfOptStr v.basic.body_type)]),
     ("generated_at", .str (isoUtc now)),
     ("model_version", .str "fallback_system"),
     ("error", .bool true)]

/-- Conditions under which `_format_data_for_prompt` raises (and the blanket
handler of `generate_vehicle_insights` therefore falls back): a history
record whose `event_type` is `None` (`None.lower()`), or a `max` over two or
more values where some compared `reading_date`/MOT `mileage` is `None`. -/
def formatCrashes (v : VehicleData) : Bool :=
  v.history.any (fun h => h.event_type.isNone) ||
  (1 < v.mileage_records.length &&
    v.mileage_records.any (fun r => r.reading_date.isNone)) ||
  (let motMileages := (v.history.filter (fun h =>
      match h.event_type with
      | Option.some et => pyLower et = "mot"
      | Option.none => false)).map (fun h => h.mileage)
   1 < motMileages.length && motMileages.any Option.isNone)

/-- External state and configuration of one request: the clock, the LLM
call outcome (`.error` models `TransientError`/any transport exception),
the deployment tag used for `model_version`, and whether the DB commit
succeeds (`false` models `PersistenceError`). -/
structure Env where
  now : Int
  today : PyDate
  llm : Except PyErr String
  modelVersion : String
  dbCommitOk : Bool

/-- `VehicleAIService.generate_vehicle_insights`: format the prompt (falling
back if formatting raises), invoke the chain, stamp `generated_at`,
`model_version` and `error` onto the parsed dict; any exception — transport
failure or item assignment on a non-dict parse result — yields the fallback
artifact. -/
def generateVehicleInsights (env : Env) (v : VehicleData) : PyVal :=
  if formatCrashes v then fallbackInsights env.now v
  else
    match env.llm with
    | .error _ => fallbackInsights env.now v
    | .ok text =>
      match insightsOutputParse text with
      | .dict kvs =>
        let d1 := assocSet kvs "generated_at" (.str (isoUtc env.now))
        let d2 := assocSet d1 "model_version" (.str env.modelVersion)
        .dict (assocSet d2 "error" ((d2.lookup "error_parsing").getD (.bool false)))
      | _ => fallbackInsights env.now v

/-! ### Derived flags (`_check_has_issues`, `_check_needs_attention`) -/

/-- Short-circuiting `or` over the early-return phases of the flag checks:
a raised exception propagates, a `True` returns immediately. -/
def exOr (x : Except PyErr Bool) (y : Unit → Except PyErr Bool) : Except PyErr Bool :=
  match x with
  | .ok true => .ok true
  | .ok false => y ()
  | .error e => .error e

/-- History phase of `_check_has_issues`: `record.get("event_type", "")`
yields the stored value (the key is always present), so a stored `None`
raises `AttributeError` on `.upper()`; same for `pass_fail` once the type
matched `"MOT"`. -/
def motFailFlag : List HistoryRecord → Except PyErr Bool
  | [] => .ok false
  | r :: rest =>
    match r.event_type with
    | Option.none => .error .attributeError
    | Option.some et =>
      if pyUpper et = "MOT" then
        match r.pass_fail with
        | Option.none => .error .attributeError
        | Option.some pf =>
          if pyUpper pf = "FAIL" then .ok true else motFailFlag rest
      else motFailFlag rest

/-- Recall phase of `_check_has_issues` (a stored `None` status raises on
`.lower()`). -/
def recallOpenFlag : List RecallRecord → Except PyErr Bool
  | [] => .ok false
  | r :: rest =>
    match r.recall_status with
    | Option.none => .error .attributeError
    | Option.some s =>
      if pyLower s = "outstanding" ∨ pyLower s = "not completed" ∨ pyLower s = "open"
      then .ok true else recallOpenFlag rest

/-- Keyword test of `_check_has_issues` over one attention item. -/
def hasIssueKeyword (s : String) : Bool :=
  strContains (pyLower s) "critical" || strContains (pyLower s) "safety recall" ||
  strContains (pyLower s) "stolen" || strContains (pyLower s) "outstanding finance"

/-- `any(... for item in attention_items)` with `item.lower()`: a non-string
item raises `AttributeError` unless an earlier item already matched. -/
def attentionAnyIssue : List PyVal → Except PyErr Bool
  | [] => .ok false
  | .str s :: rest =>
    if hasIssueKeyword s then .ok true else attentionAnyIssue rest
  | _ :: _ => .error .attributeError

/-- Attention phase of `_check_has_issues`: iterating a string yields
single characters (none can contain a multi-character keyword), iterating a
dict yields its keys, anything else is not iterable. -/
def attentionIssueFlag (ins : PyVal) : Except PyErr Bool :=
  match pyDictGetD ins "attention_items" (.list []) with
  | .list items => attentionAnyIssue items
  | .str _ => .ok false
  | .dict kvs => attentionAnyIssue (kvs.map (fun kv => PyVal.str kv.1))
  | _ => .error .typeError

/-- Reliability-score phase of `_check_has_issues`:
`int(score) <= 3` guarded by dict shape and Python truthiness;
`ValueError`/`TypeError` from `int()` are caught (`.ok false`), the
`OverflowError` on an infinite float is not. -/
def scoreFlag (ins : PyVal) : Except PyErr Bool :=
  match pyDictGet ins "reliability_assessment" with
  | Option.some (.dict kvs) =>
    let sv := (kvs.lookup "score").getD .none
    if pyTruthy sv then
      match pyIntConv sv with
      | .ok (Option.some n) => .ok (decide (n ≤ 3))
      | .ok Option.none => .ok false
      | .error e => .error e
    else .ok false
  | _ => .ok false

/-- `VehicleService._check_has_issues`. -/
def checkHasIssues (v : VehicleData) (ins : PyVal) : Except PyErr Bool :=
  exOr (motFailFlag v.history) fun _ =>
  exOr (recallOpenFlag v.recalls) fun _ =>
  exOr (.ok (v.theft_records.any (fun t => decide (t.current_status = Option.some "stolen")))) fun _ =>
  exOr (.ok (v.insurance_claims.any (fun c => c.total_loss.getD false))) fun _ =>
  exOr (.ok (v.finance_records.any (fun f => f.outstanding_finance.getD false))) fun _ =>
  exOr (attentionIssueFlag ins) fun _ =>
  scoreFlag ins

/-- Is a due date within `k` days of today (`(d - today).days <= k`)?  The
string-parsing branch of the source is dead at this level: the dicts hold
`date` objects. -/
def dueSoon (d : Option PyDate) (today : PyDate) (k : Int) : Bool :=
  match d with
  | Option.none => false
  | Option.some dd => dateToDays dd - dateToDays today ≤ k

/-- Keyword test of `_check_needs_attention` over one attention item
(case-sensitive in the source). -/
def needsKeyword (s : String) : Bool :=
  strContains s "MOT due" || strContains s "Tax due" ||
  strContains s "finance ending" || strContains s "outstanding recall"

/-- `any("MOT due" in item ...)`: `in` against a non-string item raises
`TypeError` unless an earlier item already matched. -/
def attentionAnyNeeds : List PyVal → Except PyErr Bool
  | [] => .ok false
  | .str s :: rest =>
    if needsKeyword s then .ok true else attentionAnyNeeds rest
  | _ :: _ => .error .typeError

/-- Attention phase of `_check_needs_attention` (`attention_items and
len(attention_items) > 0` then the keyword scan; `len` of an unsized truthy
value raises `TypeError`). -/
def attentionNeedsFlag (ins : PyVal) : Except PyErr Bool :=
  let val := pyDictGetD ins "attention_items" (.list [])
  if pyTruthy val then
    match val with
    | .list items => attentionAnyNeeds items
    | .str _ => .ok false
    | .dict kvs => attentionAnyNeeds (kvs.map (fun kv => PyVal.str kv.1))
    | _ => .error .typeError
  else .ok false

/-- `VehicleService._check_needs_attention`. -/
def checkNeedsAttention (today : PyDate) (v : VehicleData) (ins : PyVal) :
    Except PyErr Bool :=
  if dueSoon v.basic.mot_expiry_date today 30 ∨ dueSoon v.basic.tax_due_date today 30
  then .ok true
  else if v.finance_records.any (fun f =>
      f.outstanding_finance.getD false || dueSoon f.finance_end_date today 60)
  then .ok true
  else attentionNeedsFlag ins

/-! ### Cache write and miss-path orchestration
(`_cache_ai_insights`, `_get_or_generate_ai_insights` lines 200-209) -/

/-- Python `vehicle.vrm or vehicle.vin` (empty strings are falsy). -/
def pyOrOptStr (a b : Option String) : Option String :=
  match a with
  | Option.some s => if s ≠ "" then Option.some s else b
  | Option.none => b

/-- `insights_dict.get("model_version", "unknown")`; the pipeline always
stores a string there (`generate_vehicle_insights` stamps it), so the
non-string case is collapsed to the default. -/
def modelVersionOf (ins : PyVal) : String :=
  match pyDictGet ins "model_version" with
  | Option.some (.str s) => s
  | _ => "unknown"

/-- `VehicleService._cache_ai_insights`: derive the two flags, serialize the
artifact, upsert one row keyed by vehicle id, commit.  Any raised exception
(flag derivation, fingerprinting, commit) is caught, the transaction rolled
back, and no row is written (`Option.none`).  `generated_at` stores the
artifact's freshly stamped timestamp (ISO round-trip, modelled as the
instant itself). -/
def cacheAiInsights (env : Env) (v : VehicleData) (ins : PyVal) :
    Option CacheEntry :=
  match checkHasIssues v ins with
  | .error _ => Option.none
  | .ok hi =>
    match checkNeedsAttention env.today v ins with
    | .error _ => Option.none
    | .ok na =>
      match calculateDataHash v with
      | .error _ => Option.none
      | .ok dh =>
        if env.dbCommitOk then
          Option.some
            { vehicle_id := v.basic.id
              search_key := pyOrOptStr v.basic.vrm v.basic.vin
              insights_json := Option.some (pyDumps ins)
              has_issues := hi
              needs_attention := na
              generated_at := Option.some env.now
              llm_model_version := Option.some (modelVersionOf ins)
              data_hash := Option.some dh }
        else Option.none

/-- The cache-miss path of `_get_or_generate_ai_insights` (lines 200-209):
generate, persist unless the artifact is an error artifact, stamp
`cached=False` on the returned artifact regardless of the persistence
outcome.  Returns the artifact handed to the caller and the row written (if
any). -/
def generateAndMaybeCache (env : Env) (v : VehicleData) :
    PyVal × Option CacheEntry :=
  let fresh := generateVehicleInsights env v
  let write :=
    if pyTruthy (pyDictGetD fresh "error" .none) then Option.none
    else cacheAiInsights env v fresh
  (pySetKey fresh "cached" (.bool false), write)

/-! ### Forced invalidation (`refresh_vehicle_insights` route) -/

/-- Delete the cache rows of one vehicle id. -/
def invalidateCache (rows : List CacheEntry) (vid : Int) : List CacheEntry :=
  rows.filter (fun r => r.vehicle_id ≠ vid)

/-- The single cache row of a vehicle, if present. -/
def lookupCache (rows : List CacheEntry) (vid : Int) : Option CacheEntry :=
  rows.find? (fun r => r.vehicle_id == vid)

/-- Outcome of `GET /vehicle/{id}/refresh-insights`: HTTP status and the
cache table afterwards. -/
structure RefreshResult where
  status : Nat
  rows : List CacheEntry
deriving DecidableEq, Repr

/-- `refresh_vehicle_insights`: 404 (cache untouched) when the vehicle is
unknown, else delete its cache row and 200. -/
def refreshInsightsRoute (vehicles : List Int) (rows : List CacheEntry)
    (vid : Int) : RefreshResult :=
  if vid ∈ vehicles then ⟨200, invalidateCache rows vid⟩ else ⟨404, rows⟩

/-! ### Specification-side definitions (phrased from the spec's words, for
comparison with the code-side definitions above) -/

/-- Claim C1's regeneration condition as the spec states it: no entry, or
the entry lacks a fingerprint or a generation timestamp, or the fingerprint
differs, or the age exceeds 30 days (`now - generated_at > 30 days`). -/
def c1SpecRegenerate (cached : Option CacheEntry) (v : VehicleData) (now : Int) : Prop :=
  cached = Option.none ∨
  ∃ e, cached = Option.some e ∧
    (e.data_hash = Option.none ∨ e.generated_at = Option.none ∨
     (∃ cur, calculateDataHash v = .ok cur ∧ e.data_hash ≠ Option.some cur) ∨
     (∃ g, e.generated_at = Option.some g ∧ 30 * 86400 < now - g))

/-- Claim C3 / §3's derived mileage: the maximum mileage found across all
HistoryEvent and MileageReading records, neither collection authoritative. -/
def specMaxMileageAcrossBoth (v : VehicleData) : Option Int :=
  pyMaxIntList (v.history.filterMap (fun h => h.mileage) ++
    v.mileage_records.filterMap (fun r => r.mileage))

/-- Claim C4's "stripping an optional Markdown code-fence wrapper": strip
whitespace, remove a leading fence line (backticks plus optional info
string) and a trailing fence, strip again. -/
def specStripCodeFence (s : String) : String :=
  let t := pyStrip s
  if strStarts t "```" then
    let body : String := ⟨(t.data.drop 3).dropWhile (fun c => c ≠ '\n')⟩
    let body := if strEnds body "```" then strDropRight body 3 else body
    pyStrip body
  else t

/-- Key list of a dict-shaped artifact. -/
def artifactKeys (v : PyVal) : List String :=
  match v with
  | .dict kvs => kvs.map Prod.fst
  | _ => []

/-- Claim C8: some MOT-type history record has a fail outcome. -/
def isMotFailRec (r : HistoryRecord) : Bool :=
  decide (r.event_type.map pyUpper = Option.some "MOT") &&
  decide (r.pass_fail.map pyUpper = Option.some "FAIL")

/-- Claim C8: a recall in an open/outstanding status. -/
def isOpenRecall (r : RecallRecord) : Bool :=
  match r.recall_status with
  | Option.some s =>
    pyLower s = "outstanding" || pyLower s = "not completed" || pyLower s = "open"
  | Option.none => false

/-- Claim C8: a theft record whose current status is "stolen". -/
def isStolenTheft (t : TheftRecord) : Bool :=
  decide (t.current_status = Option.some "stolen")

/-- Claim C8: a total-loss insurance claim. -/
def isTotalLossClaim (c : InsuranceClaim) : Bool := c.total_loss.getD false

/-- Claim C8: an outstanding finance record. -/
def isOutstandingFin (f : FinanceRecord) : Bool := f.outstanding_finance.getD false

/-- Claim C8: the artifact's attention items mention one of the
safety/critical/stolen/outstanding-finance keywords. -/
def attentionHasIssueKeyword (ins : PyVal) : Bool :=
  match pyDictGet ins "attention_items" with
  | Option.some (.list items) =>
    items.any (fun x =>
      match x with
      | .str s => hasIssueKeyword s
      | _ => false)
  | _ => false

/-- Amended C8 score condition: the reliability score is truthy and its
`int()` value is at most 3. -/
def scoreTruthyLeThree (ins : PyVal) : Bool :=
  match pyDictGet ins "reliability_assessment" with
  | Option.some (.dict kvs) =>
    match kvs.lookup "score" with
    | Option.some sv =>
      pyTruthy sv &&
      (match pyIntConv sv with
       | .ok (Option.some n) => decide (n ≤ 3)
       | _ => false)
    | Option.none => false
  | _ => false

/-- Claim C8's score condition as stated: the numeric reliability score is
at most 3 (no truthiness guard). -/
def scoreNumericLeThree (ins : PyVal) : Bool :=
  match pyDictGet ins "reliability_assessment" with
  | Option.some (.dict kvs) =>
    match kvs.lookup "score" with
    | Option.some sv =>
      (match pyIntConv sv with
       | .ok (Option.some n) => decide (n ≤ 3)
       | _ => false)
    | Option.none => false
  | _ => false

/-- The artifact contract keeps `attention_items` a (possibly absent) list;
the amended C8 characterization is scoped to such artifacts. -/
def attentionIsListOrAbsent (ins : PyVal) : Bool :=
  match pyDictGet ins "attention_items" with
  | Option.some (.list _) => true
  | Option.none => true
  | _ => false

/-- Amended C8 disjunction. -/
def hasIssuesSpec (v : VehicleData) (ins : PyVal) : Bool :=
  v.history.any isMotFailRec || v.recalls.any isOpenRecall ||
  v.theft_records.any isStolenTheft || v.insurance_claims.any isTotalLossClaim ||
  v.finance_records.any isOutstandingFin || attentionHasIssueKeyword ins ||
  scoreTruthyLeThree ins

/-- Claim C8 disjunction as stated (score condition without the truthiness
guard). -/
def hasIssuesClaim (v : VehicleData) (ins : PyVal) : Bool :=
  v.history.any isMotFailRec || v.recalls.any isOpenRecall ||
  v.theft_records.any isStolenTheft || v.insurance_claims.any isTotalLossClaim ||
  v.finance_records.any isOutstandingFin || attentionHasIssueKeyword ins ||
  scoreNumericLeThree ins

/-- Day number of a mileage record's reading date (0 for a missing date;
only used where all dates are present). -/
def readingDays (r : MileageRecord) : Int :=
  match r.reading_date with
  | Option.some d => dateToDays d
  | Option.none => 0

/-! ### Concrete instances used by witnesses and counterexamples -/

/-- A `basic` dictionary whose optional fields are all `None`. -/
def emptyBasic : BasicInfo :=
  { id := 1, vin := Option.none, vrm := Option.none, make := Option.none,
    model := Option.none, variant := Option.none, year := Option.none,
    registration_date := Option.none, engine_size := Option.none,
    fuel_type := Option.none, transmission := Option.none,
    body_type := Option.none, doors := Option.none, seats := Option.none,
    engine_power_hp := Option.none, engine_power_kw := Option.none,
    co2_emissions := Option.none, fuel_consumption_combined := Option.none,
    vehicle_status := Option.none, mot_status := Option.none,
    mot_expiry_date := Option.none, tax_status := Option.none,
    tax_due_date := Option.none, insurance_group := Option.none,
    euro_status := Option.none, vehicle_class := Option.none,
    created_at := Option.none, updated_at := Option.none }

/-- An aggregate with empty collections. -/
def emptyVehicle : VehicleData :=
  { basic := emptyBasic, valuations := [], history := [], recalls := [],
    specifications := Option.none, ownership_history := [], theft_records := [],
    insurance_claims := [], mileage_records := [], finance_records := [],
    auction_records := [] }

/-- A history record whose optional fields are all `None`. -/
def blankHistory : HistoryRecord :=
  ⟨Option.none, Option.none, Option.none, Option.none, Option.none,
   Option.none, Option.none, Option.none, Option.none⟩

/-- A recall record whose optional fields are all `None`. -/
def blankRecall : RecallRecord :=
  ⟨Option.none, Option.none, Option.none, Option.none, Option.none,
   Option.none, Option.none, Option.none, Option.none⟩

/-- A mileage record whose optional fields are all `None`. -/
def blankMileage : MileageRecord :=
  ⟨Option.none, Option.none, Option.none, Option.none, Option.none, Option.none⟩

/-- An insurance claim whose optional fields are all `None`. -/
def blankClaim : InsuranceClaim :=
  ⟨Option.none, Option.none, Option.none, Option.none, Option.none,
   Option.none, Option.none, Option.none, Option.none, Option.none, Option.none⟩

/-- C1 counterexample vehicle (no collections, so the fingerprint is
computed without raising). -/
def c1Vehicle : VehicleData := emptyVehicle

/-- The digest the code computes for `c1Vehicle`. -/
def c1Digest : String := digestOfInput (hashInputWith c1Vehicle Option.none)

/-- C1 counterexample cache entry: fingerprint matches, generated 30 days
and one hour before `c1Now`. -/
def c1Entry : CacheEntry :=
  { vehicle_id := 1, search_key := Option.none,
    insights_json := Option.some "\x7b\x7d", has_issues := false,
    needs_attention := false, generated_at := Option.some 0,
    llm_model_version := Option.some "m", data_hash := Option.some c1Digest }

/-- 30 days and one hour after the entry's generation instant. -/
def c1Now : Int := 30 * 86400 + 3600

/-- C1 counterexample entry with a missing generation timestamp. -/
def c1EntryNoTs : CacheEntry :=
  { c1Entry with generated_at := Option.none }

/-- C2 witness aggregates: identical projections, different `make` (a field
outside the normalized projection). -/
def c2VehicleA : VehicleData :=
  { emptyVehicle with basic := { emptyBasic with make := Option.some "Ford" } }

/-- Second C2 witness aggregate. -/
def c2VehicleB : VehicleData :=
  { emptyVehicle with basic := { emptyBasic with make := Option.some "Focus" } }

/-- The shared normalized projection of the two C2 witness aggregates. -/
def c2Proj : HashInput :=
  { basic := { vin := Option.none, vrm := Option.none, year := Option.none,
               mileage := Option.none, mot_status := Option.none,
               mot_expiry_date := "None", vehicle_status := Option.none }
    history_count := 0, valuations_count := 0, recalls_count := 0,
    last_recall_status := Option.none, ownership_changes_count := 0,
    theft_records_count := 0, last_theft_status := Option.none,
    insurance_claims_count := 0, last_claim_total_loss := Option.none,
    mileage_records_count := 0, finance_records_count := 0,
    last_finance_outstanding := Option.none, auction_records_count := 0,
    last_auction_sold := Option.none, db_updated_at := "None" }

/-- C3 counterexample: the single mileage reading holds 100, a history
record holds the larger 200. -/
def c3Vehicle : VehicleData :=
  { emptyVehicle with
    mileage_records :=
      [{ blankMileage with reading_date := Option.some ⟨2024, 1, 1⟩,
                           mileage := Option.some 100 }]
    history :=
      [{ blankHistory with event_type := Option.some "Service",
                           mileage := Option.some 200 }] }

/-- C4 counterexample input: valid JSON wrapped in a plain (untagged)
Markdown code fence. -/
def c4Fenced : String := "```\n\x7b\"a\": 1\x7d\n```"

/-- Environment whose LLM call succeeds with the empty JSON object. -/
def envOkEmptyJson : Env :=
  ⟨0, ⟨2024, 1, 1⟩, .ok "\x7b\x7d", "azure-gpt", true⟩

/-- Environment whose LLM call fails. -/
def envLlmFails : Env :=
  ⟨0, ⟨2024, 1, 1⟩, .error .typeError, "azure-gpt", true⟩

/-- C6/C10 vehicle: one recall whose status is NULL (flag derivation
raises on `.lower()`, prompt formatting does not touch it). -/
def c6Vehicle : VehicleData := { emptyVehicle with recalls := [blankRecall] }

/-- C10 vehicle: one history record whose `event_type` is NULL. -/
def c10Vehicle : VehicleData := { emptyVehicle with history := [blankHistory] }

/-- C10 artifact with a non-string attention item. -/
def c10BadItems : PyVal := .dict [("attention_items", .list [.int 1])]

/-- C8 counterexample artifact: reliability score 0 (numeric, `<= 3`, but
falsy so the code skips it). -/
def c8ScoreZero : PyVal :=
  .dict [("reliability_assessment", .dict [("score", .int 0)])]

/-- C8 witness vehicle: one total-loss insurance claim. -/
def c8TotalLossVehicle : VehicleData :=
  { emptyVehicle with
    insurance_claims := [{ blankClaim with total_loss := Option.some true }] }

/-- C3 witness vehicle for the crash case: two mileage readings, one with a
missing reading date. -/
def c3CrashVehicle : VehicleData :=
  { emptyVehicle with
    mileage_records :=
      [blankMileage,
       { blankMileage with reading_date := Option.some ⟨2024, 1, 2⟩ }] }

/-- C9 witness cache table: one row for vehicle 1. -/
def c9Rows : List CacheEntry :=
  [{ vehicle_id := 1, search_key := Option.none, insights_json := Option.none,
     has_issues := false, needs_attention := false,
     generated_at := Option.some 0, llm_model_version := Option.none,
     data_hash := Option.none }]

/-! ### Helper lemmas -/

theorem toHexFixed_length (k n : Nat) : (toHexFixed k n).length = k := by
  induction k generalizing n with
  | zero => rfl
  | succ k ih =>
    simp [toHexFixed, String.length_append, ih]

theorem toHexFixed_mem (k n : Nat) (c : Char) (h : c ∈ (toHexFixed k n).data) :
    c ∈ "0123456789abcdef".data := by
  induction k generalizing n with
  | zero => simp [toHexFixed] at h
  | succ k ih =>
    rw [toHexFixed, String.data_append] at h
    rcases List.mem_append.mp h with h1 | h1
    · exact ih _ h1
    · simp only [List.mem_singleton] at h1
      subst h1
      cases hq : ("0123456789abcdef".data).get? (n % 16) with
      | none => decide
      | some c' => exact List.get?_mem hq

theorem sha256hex_length (s : String) : (sha256hex s).length = 64 := by
  simp [sha256hex, hash8hex, String.length_append, toHexFixed_length]

theorem sha256hex_mem (s : String) (c : Char) (h : c ∈ (sha256hex s).data) :
    c ∈ "0123456789abcdef".data := by
  simp only [sha256hex, hash8hex, String.data_append, List.mem_append] at h
  rcases h with ((((((h | h) | h) | h) | h) | h) | h) | h <;> exact toHexFixed_mem _ _ _ h

theorem exOr_cases (x : Except PyErr Bool) (y : Unit → Except PyErr Bool) (b : Bool)
    (h : exOr x y = .ok b) :
    (x = .ok true ∧ b = true) ∨ (x = .ok false ∧ y () = .ok b) := by
  cases x with
  | ok bv =>
    cases bv
    · exact Or.inr ⟨rfl, h⟩
    · simp [exOr] at h
      exact Or.inl ⟨rfl, h⟩
  | error e => simp [exOr] at h

theorem assocSet_lookup (kvs : List (String × PyVal)) (k : String) (val : PyVal) :
    (assocSet kvs k val).lookup k = Option.some val := by
  induction kvs with
  | nil => simp [assocSet, List.lookup]
  | cons kv rest ih =>
    obtain ⟨k', v'⟩ := kv
    by_cases hk : k' = k
    · subst hk
      simp [assocSet, List.lookup]
    · have hne : (k == k') = false := by
        simp [beq_eq_false_iff_ne]
        exact Ne.symm hk
      simp only [assocSet, if_neg hk, List.lookup, hne]
      exact ih

theorem generateVehicleInsights_dict (env : Env) (v : VehicleData) :
    ∃ kvs, generateVehicleInsights env v = PyVal.dict kvs := by
  unfold generateVehicleInsights
  split
  · exact ⟨_, rfl⟩
  · split
    · exact ⟨_, rfl⟩
    · split
      · exact ⟨_, rfl⟩
      · exact ⟨_, rfl⟩

theorem pyMaxBy_mem_max (rest : List MileageRecord) (best : MileageRecord)
    (hb : best.reading_date ≠ Option.none)
    (hr : ∀ x ∈ rest, x.reading_date ≠ Option.none) :
    ∃ m, pyMaxByReadingDate best rest = .ok m ∧ (m = best ∨ m ∈ rest) ∧
      readingDays best ≤ readingDays m ∧ ∀ x ∈ rest, readingDays x ≤ readingDays m := by
  induction rest generalizing best with
  | nil => exact ⟨best, rfl, Or.inl rfl, le_refl _, by simp⟩
  | cons r rest ih =>
    cases hrd : r.reading_date with
    | none => exact absurd hrd (hr r (List.mem_cons_self r rest))
    | some da =>
      cases hbd : best.reading_date with
      | none => exact absurd hbd hb
      | some db =>
        have hstep : pyMaxByReadingDate best (r :: rest) =
            pyMaxByReadingDate (if dateGtB da db then r else best) rest := by
          rw [pyMaxByReadingDate, hrd, hbd]
        have hb' : (if dateGtB da db then r else best).reading_date ≠ Option.none := by
          split
          · rw [hrd]; exact Option.noConfusion
          · rw [hbd]; exact Option.noConfusion
        obtain ⟨m, hm, hmem, hge, hall⟩ :=
          ih (if dateGtB da db then r else best) hb'
            (fun x hx => hr x (List.mem_cons_of_mem r hx))
        refine ⟨m, hstep.trans hm, ?_, ?_, ?_⟩
        · rcases hmem with hmem | hmem
          · subst hmem
            split
            · exact Or.inr (List.mem_cons_self _ _)
            · exact Or.inl rfl
          · exact Or.inr (List.mem_cons_of_mem _ hmem)
        · by_cases hgt : dateGtB da db
          · have h1 : dateToDays db < dateToDays da := by
              simpa [dateGtB] using hgt
            have h2 : readingDays best = dateToDays db := by simp [readingDays, hbd]
            have h3 : readingDays r = dateToDays da := by simp [readingDays, hrd]
            have h4 : readingDays (if dateGtB da db then r else best) ≤ readingDays m := hge
            rw [if_pos hgt, h3] at h4
            omega
          · rw [if_neg hgt] at hge
            exact hge
        · intro x hx
          rcases List.mem_cons.mp hx with hx | hx
          · subst hx
            by_cases hgt : dateGtB da db
            · have := hge
              rw [if_pos hgt] at this
              exact this
            · have h1 : ¬dateToDays db < dateToDays da := by
                simpa [dateGtB] using hgt
              have h2 : readingDays best = dateToDays db := by simp [readingDays, hbd]
              have h3 : readingDays x = dateToDays da := by simp [readingDays, hrd]
              rw [if_neg hgt] at hge
              omega
          · exact hall x hx

theorem pyMaxBy_crash (rest : List MileageRecord) (best : MileageRecord)
    (h : (best.reading_date = Option.none ∧ rest ≠ []) ∨
         ∃ x ∈ rest, x.reading_date = Option.none) :
    pyMaxByReadingDate best rest = .error .typeError := by
  induction rest generalizing best with
  | nil =>
    rcases h with ⟨_, h2⟩ | ⟨x, hx, _⟩
    · exact absurd rfl h2
    · simp at hx
  | cons r rest ih =>
    cases hrd : r.reading_date with
    | none => rw [pyMaxByReadingDate, hrd]
    | some da =>
      cases hbd : best.reading_date with
      | none => rw [pyMaxByReadingDate, hrd, hbd]
      | some db =>
        rw [pyMaxByReadingDate, hrd, hbd]
        apply ih
        rcases h with ⟨hb, _⟩ | ⟨x, hx, hxn⟩
        · rw [hbd] at hb; exact absurd hb (Option.noConfusion)
        · rcases List.mem_cons.mp hx with hx | hx
          · subst hx; rw [hrd] at hxn; exact absurd hxn (Option.noConfusion)
          · exact Or.inr ⟨x, hx, hxn⟩

theorem invalidate_idem (rows : List CacheEntry) (vid : Int) :
    invalidateCache (invalidateCache rows vid) vid = invalidateCache rows vid := by
  unfold invalidateCache
  rw [List.filter_filter]
  simp

theorem lookup_invalidate (rows : List CacheEntry) (vid : Int) :
    lookupCache (invalidateCache rows vid) vid = Option.none := by
  induction rows with
  | nil => rfl
  | cons r rest ih =>
    unfold invalidateCache at ih ⊢
    unfold lookupCache at ih ⊢
    by_cases hv : r.vehicle_id = vid
    · simp [List.filter_cons, hv, ih]
    · simp only [List.filter_cons]
      rw [if_pos (by simpa using hv)]
      rw [List.find?_cons]
      have : (r.vehicle_id == vid) = false := by simpa using hv
      rw [this]
      exact ih

theorem fdiv_gt_thirty_iff (x : Int) : (30 < x.fdiv 86400) ↔ 31 * 86400 ≤ x := by
  rw [Int.fdiv_eq_ediv _ (by norm_num)]
  omega

theorem motFailFlag_ok (l : List HistoryRecord) (b : Bool)
    (h : motFailFlag l = .ok b) : b = l.any isMotFailRec := by
  induction l with
  | nil =>
    simp only [motFailFlag, Except.ok.injEq] at h
    simp [← h]
  | cons r rest ih =>
    rw [motFailFlag] at h
    cases het : r.event_type with
    | none =>
      simp only [het] at h
      exact Except.noConfusion h
    | some et =>
      simp only [het] at h
      by_cases hmot : pyUpper et = "MOT"
      · rw [if_pos hmot] at h
        cases hpf : r.pass_fail with
        | none =>
          simp only [hpf] at h
          exact Except.noConfusion h
        | some pf =>
          simp only [hpf] at h
          by_cases hfail : pyUpper pf = "FAIL"
          · rw [if_pos hfail] at h
            simp only [Except.ok.injEq] at h
            simp [← h, List.any_cons, isMotFailRec, het, hpf, hmot, hfail]
          · rw [if_neg hfail] at h
            rw [ih h]
            simp [List.any_cons, isMotFailRec, het, hpf, hmot, hfail]
      · rw [if_neg hmot] at h
        rw [ih h]
        simp [List.any_cons, isMotFailRec, het, hmot]

theorem recallOpenFlag_ok (l : List RecallRecord) (b : Bool)
    (h : recallOpenFlag l = .ok b) : b = l.any isOpenRecall := by
  induction l with
  | nil =>
    simp only [recallOpenFlag, Except.ok.injEq] at h
    simp [← h]
  | cons r rest ih =>
    rw [recallOpenFlag] at h
    cases hst : r.recall_status with
    | none =>
      simp only [hst] at h
      exact Except.noConfusion h
    | some s =>
      simp only [hst] at h
      by_cases hopen : pyLower s = "outstanding" ∨ pyLower s = "not completed" ∨ pyLower s = "open"
      · rw [if_pos hopen] at h
        simp only [Except.ok.injEq] at h
        rcases hopen with h1 | h1 | h1 <;>
          simp [← h, List.any_cons, isOpenRecall, hst, h1]
      · rw [if_neg hopen] at h
        push_neg at hopen
        rw [ih h]
        simp [List.any_cons, isOpenRecall, hst, hopen.1, hopen.2.1, hopen.2.2]

theorem attentionAnyIssue_ok (items : List PyVal) (b : Bool)
    (h : attentionAnyIssue items = .ok b) :
    b = items.any (fun x =>
      match x with
      | .str s => hasIssueKeyword s
      | _ => false) := by
  induction items with
  | nil =>
    simp only [attentionAnyIssue, Except.ok.injEq] at h
    simp [← h]
  | cons x rest ih =>
    cases x with
    | str s =>
      rw [attentionAnyIssue] at h
      by_cases hkw : hasIssueKeyword s = true
      · rw [if_pos hkw] at h
        simp only [Except.ok.injEq] at h
        simp [← h, List.any_cons, hkw]
      · rw [if_neg hkw] at h
        rw [ih h]
        simp only [Bool.not_eq_true] at hkw
        simp [List.any_cons, hkw]
    | none => simp [attentionAnyIssue] at h
    | bool v => simp [attentionAnyIssue] at h
    | int n => simp [attentionAnyIssue] at h
    | float f => simp [attentionAnyIssue] at h
    | list xs => simp [attentionAnyIssue] at h
    | dict kvs => simp [attentionAnyIssue] at h

theorem attentionIssueFlag_ok (ins : PyVal) (b : Bool)
    (hA : attentionIsListOrAbsent ins = true)
    (h : attentionIssueFlag ins = .ok b) : b = attentionHasIssueKeyword ins := by
  unfold attentionIssueFlag at h
  unfold attentionIsListOrAbsent at hA
  unfold attentionHasIssueKeyword
  cases hv : pyDictGet ins "attention_items" with
  | none =>
    simp only [pyDictGetD, hv, Option.getD] at h
    simp only [attentionAnyIssue, Except.ok.injEq] at h
    simp [hv, ← h]
  | some val =>
    simp only [hv] at hA
    cases val with
    | list items =>
      simp only [pyDictGetD, hv, Option.getD] at h
      rw [attentionAnyIssue_ok items b h]
    | none => simp at hA
    | bool v => simp at hA
    | int n => simp at hA
    | float f => simp at hA
    | str s => simp at hA
    | dict kvs => simp at hA

theorem scoreFlag_ok (ins : PyVal) (b : Bool) (h : scoreFlag ins = .ok b) :
    b = scoreTruthyLeThree ins := by
  unfold scoreFlag at h
  unfold scoreTruthyLeThree
  cases hra : pyDictGet ins "reliability_assessment" with
  | none =>
    simp only [hra, Except.ok.injEq] at h
    simp [hra, ← h]
  | some val =>
    cases val with
    | dict kvs =>
      simp only [hra] at h
      cases hs : kvs.lookup "score" with
      | none =>
        simp only [hs, Option.getD] at h
        rw [if_neg (by simp [pyTruthy])] at h
        simp only [Except.ok.injEq] at h
        simp [hra, hs, ← h]
      | some sv =>
        simp only [hs, Option.getD] at h
        by_cases htr : pyTruthy sv = true
        · rw [if_pos htr] at h
          cases hconv : pyIntConv sv with
          | ok o =>
            cases o with
            | none =>
              simp only [hconv, Except.ok.injEq] at h
              simp [hra, hs, htr, hconv, ← h]
            | some n =>
              simp only [hconv, Except.ok.injEq] at h
              simp [hra, hs, htr, hconv, ← h]
          | error e =>
            simp only [hconv] at h
            exact Except.noConfusion h
        · rw [if_neg htr] at h
          simp only [Except.ok.injEq] at h
          simp only [Bool.not_eq_true] at htr
          simp [hra, hs, htr, ← h]
    | none => simp only [hra, Except.ok.injEq] at h; simp [hra, ← h]
    | bool v => simp only [hra, Except.ok.injEq] at h; simp [hra, ← h]
    | int n => simp only [hra, Except.ok.injEq] at h; simp [hra, ← h]
    | float f => simp only [hra, Except.ok.injEq] at h; simp [hra, ← h]
    | str s => simp only [hra, Except.ok.injEq] at h; simp [hra, ← h]
    | list xs => simp only [hra, Except.ok.injEq] at h; simp [hra, ← h]

theorem generateAndMaybeCache_fst (env : Env) (v : VehicleData) :
    (generateAndMaybeCache env v).1 =
      pySetKey (generateVehicleInsights env v) "cached" (.bool false) := rfl

theorem generateAndMaybeCache_snd (env : Env) (v : VehicleData) :
    (generateAndMaybeCache env v).2 =
      if pyTruthy (pyDictGetD (generateVehicleInsights env v) "error" .none)
      then Option.none
      else cacheAiInsights env v (generateVehicleInsights env v) := rfl

theorem cacheAiInsights_isSome_iff (env : Env) (v : VehicleData) (ins : PyVal) :
    cacheAiInsights env v ins ≠ Option.none ↔
    (∃ b1, checkHasIssues v ins = .ok b1) ∧
    (∃ b2, checkNeedsAttention env.today v ins = .ok b2) ∧
    (∃ dh, calculateDataHash v = .ok dh) ∧ env.dbCommitOk = true := by
  unfold cacheAiInsights
  cases h1 : checkHasIssues v ins with
  | error e =>
    constructor
    · intro hne; exact absurd rfl hne
    · rintro ⟨⟨b1, hb1⟩, -, -, -⟩
      exact Except.noConfusion hb1
  | ok b1 =>
    cases h2 : checkNeedsAttention env.today v ins with
    | error e =>
      constructor
      · intro hne; exact absurd rfl hne
      · rintro ⟨-, ⟨b2, hb2⟩, -, -⟩
        exact Except.noConfusion hb2
    | ok b2 =>
      cases h3 : calculateDataHash v with
      | error e =>
        constructor
        · intro hne; exact absurd rfl hne
        · rintro ⟨-, -, ⟨dh, hdh⟩, -⟩
          exact Except.noConfusion hdh
      | ok dh =>
        cases hdb : env.dbCommitOk
        · simp
        · simp

theorem cacheAiInsights_row (env : Env) (v : VehicleData) (ins : PyVal)
    (row : CacheEntry) (h : cacheAiInsights env v ins = Option.some row) :
    row.vehicle_id = v.basic.id ∧
    (∃ b1, checkHasIssues v ins = .ok b1 ∧ row.has_issues = b1) := by
  unfold cacheAiInsights at h
  cases h1 : checkHasIssues v ins with
  | error e => rw [h1] at h; exact Option.noConfusion h
  | ok b1 =>
    rw [h1] at h
    cases h2 : checkNeedsAttention env.today v ins with
    | error e => rw [h2] at h; exact Option.noConfusion h
    | ok b2 =>
      rw [h2] at h
      cases h3 : calculateDataHash v with
      | error e => rw [h3] at h; exact Option.noConfusion h
      | ok dh =>
        rw [h3] at h
        cases hdb : env.dbCommitOk
        · rw [hdb] at h; simp at h
        · rw [hdb] at h
          simp only [if_true, Option.some.injEq] at h
          subst h
          exact ⟨rfl, b1, rfl, rfl⟩

theorem checkHasIssues_ok (v : VehicleData) (ins : PyVal) (b : Bool)
    (hA : attentionIsListOrAbsent ins = true)
    (h : checkHasIssues v ins = .ok b) : b = hasIssuesSpec v ins := by
  unfold checkHasIssues at h
  unfold hasIssuesSpec
  rcases exOr_cases _ _ _ h with ⟨h1, rfl⟩ | ⟨h1, h⟩
  · rw [← motFailFlag_ok _ _ h1]
    simp
  · have hm := motFailFlag_ok _ _ h1
    rcases exOr_cases _ _ _ h with ⟨h2, rfl⟩ | ⟨h2, h⟩
    · rw [← hm, ← recallOpenFlag_ok _ _ h2]
      simp
    · have hr := recallOpenFlag_ok _ _ h2
      rcases exOr_cases _ _ _ h with ⟨h3, rfl⟩ | ⟨h3, h⟩
      · simp only [Except.ok.injEq] at h3
        rw [← hm, ← hr, show v.theft_records.any isStolenTheft = true from h3]
        simp
      · simp only [Except.ok.injEq] at h3
        rcases exOr_cases _ _ _ h with ⟨h4, rfl⟩ | ⟨h4, h⟩
        · simp only [Except.ok.injEq] at h4
          rw [← hm, ← hr, show v.theft_records.any isStolenTheft = false from h3,
            show v.insurance_claims.any isTotalLossClaim = true from h4]
          simp
        · simp only [Except.ok.injEq] at h4
          rcases exOr_cases _ _ _ h with ⟨h5, rfl⟩ | ⟨h5, h⟩
          · simp only [Except.ok.injEq] at h5
            rw [← hm, ← hr, show v.theft_records.any isStolenTheft = false from h3,
              show v.insurance_claims.any isTotalLossClaim = false from h4,
              show v.finance_records.any isOutstandingFin = true from h5]
            simp
          · simp only [Except.ok.injEq] at h5
            rcases exOr_cases _ _ _ h with ⟨h6, rfl⟩ | ⟨h6, h⟩
            · have ha := attentionIssueFlag_ok _ _ hA h6
              rw [← hm, ← hr, show v.theft_records.any isStolenTheft = false from h3,
                show v.insurance_claims.any isTotalLossClaim = false from h4,
                show v.finance_records.any isOutstandingFin = false from h5, ← ha]
              simp
            · have ha := attentionIssueFlag_ok _ _ hA h6
              have hsc := scoreFlag_ok _ _ h
              rw [← hm, ← hr, show v.theft_records.any isStolenTheft = false from h3,
                show v.insurance_claims.any isTotalLossClaim = false from h4,
                show v.finance_records.any isOutstandingFin = false from h5, ← ha, ← hsc]
              simp

theorem checkHasIssues_total_loss (v : VehicleData) (ins : PyVal) (b : Bool)
    (hcl : v.insurance_claims.any isTotalLossClaim = true)
    (h : checkHasIssues v ins = .ok b) : b = true := by
  unfold checkHasIssues at h
  rcases exOr_cases _ _ _ h with ⟨-, rfl⟩ | ⟨-, h⟩
  · rfl
  · rcases exOr_cases _ _ _ h with ⟨-, rfl⟩ | ⟨-, h⟩
    · rfl
    · rcases exOr_cases _ _ _ h with ⟨-, rfl⟩ | ⟨-, h⟩
      · rfl
      · rcases exOr_cases _ _ _ h with ⟨h4, rfl⟩ | ⟨h4, -⟩
        · rfl
        · simp only [Except.ok.injEq] at h4
          rw [show v.insurance_claims.any isTotalLossClaim = false from h4] at hcl
          exact absurd hcl (by simp)

theorem shouldRegenerate_some (e : CacheEntry) (v : VehicleData) (now : Int) :
    shouldRegenerate (Option.some e) v now =
      match calculateDataHash v with
      | .error er => .error er
      | .ok current =>
        if e.data_hash ≠ Option.some current then .ok true
        else
          match e.generated_at with
          | Option.none => .error .attributeError
          | Option.some g =>
            if (now - g).fdiv 86400 > 30 then .ok true else .ok false := by
  unfold shouldRegenerate
  cases calculateDataHash v <;> rfl

theorem shouldRegenerate_some_ok (e : CacheEntry) (v : VehicleData) (now : Int)
    (cur : String) (hc : calculateDataHash v = .ok cur) :
    shouldRegenerate (Option.some e) v now =
      if e.data_hash ≠ Option.some cur then .ok true
      else
        match e.generated_at with
        | Option.none => .error .attributeError
        | Option.some g =>
          if (now - g).fdiv 86400 > 30 then .ok true else .ok false := by
  rw [shouldRegenerate_some, hc]

theorem shouldRegenerate_some_error (e : CacheEntry) (v : VehicleData) (now : Int)
    (er : PyErr) (hc : calculateDataHash v = .error er) :
    shouldRegenerate (Option.some e) v now = .error er := by
  rw [shouldRegenerate_some, hc]

theorem shouldRegenerate_matched_no_ts (e : CacheEntry) (v : VehicleData) (now : Int)
    (cur : String) (hc : calculateDataHash v = .ok cur)
    (hd : e.data_hash = Option.some cur) (hg : e.generated_at = Option.none) :
    shouldRegenerate (Option.some e) v now = .error .attributeError := by
  rw [shouldRegenerate_some_ok e v now cur hc, if_neg (not_not_intro hd), hg]

theorem shouldRegenerate_true_iff (cached : Option CacheEntry) (v : VehicleData) (now : Int) :
    shouldRegenerate cached v now = .ok true ↔
      cached = Option.none ∨
      ∃ e, cached = Option.some e ∧ ∃ cur, calculateDataHash v = .ok cur ∧
        (e.data_hash ≠ Option.some cur ∨
         ∃ g, e.generated_at = Option.some g ∧ 31 * 86400 ≤ now - g) := by
  cases cached with
  | none =>
    constructor
    · intro _; exact Or.inl rfl
    · intro _; rfl
  | some e =>
    have hsplit : (∃ er, calculateDataHash v = .error er) ∨
        (∃ cur, calculateDataHash v = .ok cur) := by
      cases calculateDataHash v
      · exact Or.inl ⟨_, rfl⟩
      · exact Or.inr ⟨_, rfl⟩
    rcases hsplit with ⟨er, hc⟩ | ⟨cur, hc⟩
    · rw [shouldRegenerate_some_error e v now er hc]
      constructor
      · intro h; exact Except.noConfusion h
      · rintro (hn | ⟨e', -, cur, hcur, -⟩)
        · exact Option.noConfusion hn
        · rw [hc] at hcur; exact Except.noConfusion hcur
    · rw [shouldRegenerate_some_ok e v now cur hc]
      by_cases hd : e.data_hash = Option.some cur
      · rw [if_neg (not_not_intro hd)]
        have hgsplit : e.generated_at = Option.none ∨ ∃ g, e.generated_at = Option.some g := by
          cases e.generated_at
          · exact Or.inl rfl
          · exact Or.inr ⟨_, rfl⟩
        rcases hgsplit with hg | ⟨g, hg⟩
        · simp only [hg]
          constructor
          · intro h; exact Except.noConfusion h
          · rintro (hn | ⟨e', he', cur', hcur, hdisj⟩)
            · exact Option.noConfusion hn
            · injection he' with he'; subst he'
              rw [hc] at hcur; injection hcur with hcur; subst hcur
              rcases hdisj with hdn | ⟨g, hgg, -⟩
              · exact absurd hd hdn
              · rw [hg] at hgg; exact Option.noConfusion hgg
        · simp only [hg]
          by_cases hage : (now - g).fdiv 86400 > 30
          · rw [if_pos hage]
            constructor
            · intro _
              exact Or.inr ⟨e, rfl, cur, hc,
                Or.inr ⟨g, hg, (fdiv_gt_thirty_iff _).mp hage⟩⟩
            · intro _; rfl
          · rw [if_neg hage]
            constructor
            · intro h; injection h with h; exact Bool.noConfusion h
            · rintro (hn | ⟨e', he', cur', hcur, hdisj⟩)
              · exact Option.noConfusion hn
              · injection he' with he'; subst he'
                rw [hc] at hcur; injection hcur with hcur; subst hcur
                rcases hdisj with hdn | ⟨g', hgg, hge⟩
                · exact absurd hd hdn
                · rw [hg] at hgg; injection hgg with hgg; subst hgg
                  exact absurd ((fdiv_gt_thirty_iff _).mpr hge) hage
      · rw [if_pos hd]
        constructor
        · intro _; exact Or.inr ⟨e, rfl, cur, hc, Or.inl hd⟩
        · intro _; rfl

theorem shouldRegenerate_false_iff (cached : Option CacheEntry) (v : VehicleData) (now : Int) :
    shouldRegenerate cached v now = .ok false ↔
      ∃ e cur g, cached = Option.some e ∧ calculateDataHash v = .ok cur ∧
        e.data_hash = Option.some cur ∧ e.generated_at = Option.some g ∧
        now - g < 31 * 86400 := by
  cases cached with
  | none =>
    constructor
    · intro h; injection h with h; exact Bool.noConfusion h
    · rintro ⟨e, cur, g, hn, -⟩; exact Option.noConfusion hn
  | some e =>
    have hsplit : (∃ er, calculateDataHash v = .error er) ∨
        (∃ cur, calculateDataHash v = .ok cur) := by
      cases calculateDataHash v
      · exact Or.inl ⟨_, rfl⟩
      · exact Or.inr ⟨_, rfl⟩
    rcases hsplit with ⟨er, hc⟩ | ⟨cur, hc⟩
    · rw [shouldRegenerate_some_error e v now er hc]
      constructor
      · intro h; exact Except.noConfusion h
      · rintro ⟨e', cur, g, -, hcur, -⟩
        rw [hc] at hcur; exact Except.noConfusion hcur
    · rw [shouldRegenerate_some_ok e v now cur hc]
      by_cases hd : e.data_hash = Option.some cur
      · rw [if_neg (not_not_intro hd)]
        have hgsplit : e.generated_at = Option.none ∨ ∃ g, e.generated_at = Option.some g := by
          cases e.generated_at
          · exact Or.inl rfl
          · exact Or.inr ⟨_, rfl⟩
        rcases hgsplit with hg | ⟨g, hg⟩
        · simp only [hg]
          constructor
          · intro h; exact Except.noConfusion h
          · rintro ⟨e', cur', g, he', -, -, hgg, -⟩
            injection he' with he'; subst he'
            rw [hg] at hgg; exact Option.noConfusion hgg
        · simp only [hg]
          by_cases hage : (now - g).fdiv 86400 > 30
          · rw [if_pos hage]
            constructor
            · intro h; injection h with h; exact Bool.noConfusion h
            · rintro ⟨e', cur', g', he', hcur, -, hgg, hlt⟩
              injection he' with he'; subst he'
              rw [hg] at hgg; injection hgg with hgg; subst hgg
              exact absurd hlt (not_lt.mpr ((fdiv_gt_thirty_iff _).mp hage))
          · rw [if_neg hage]
            constructor
            · intro _
              refine ⟨e, cur, g, rfl, hc, hd, hg, ?_⟩
              by_contra hle
              exact hage ((fdiv_gt_thirty_iff _).mpr (not_lt.mp hle))
            · intro _; rfl
      · rw [if_pos hd]
        constructor
        · intro h; injection h with h; exact Bool.noConfusion h
        · rintro ⟨e', cur', g, he', hcur, hdd, -, -⟩
          injection he' with he'; subst he'
          rw [hc] at hcur; injection hcur with hcur; subst hcur
          exact absurd hdd hd

/-! ### Claim theorems -/

/-- Claim C1 (amended): `should_regenerate_insights` returns true exactly
when there is no cache entry, or the stored fingerprint is NULL or differs
from the freshly computed one, or the entry is at least 31 whole days old
(`timedelta.days > 30`, not "age exceeds 30 days"); it returns false exactly
when the fingerprint matches, a timestamp is present, and the age is under
31 whole days.  (In the remaining cases it raises instead of returning.) -/
theorem c1_should_regenerate_amended (cached : Option CacheEntry)
    (v : VehicleData) (now : Int) :
    (shouldRegenerate cached v now = .ok true ↔
      cached = Option.none ∨
      ∃ e, cached = Option.some e ∧ ∃ cur, calculateDataHash v = .ok cur ∧
        (e.data_hash ≠ Option.some cur ∨
         ∃ g, e.generated_at = Option.some g ∧ 31 * 86400 ≤ now - g))
    ∧ (shouldRegenerate cached v now = .ok false ↔
      ∃ e cur g, cached = Option.some e ∧ calculateDataHash v = .ok cur ∧
        e.data_hash = Option.some cur ∧ e.generated_at = Option.some g ∧
        now - g < 31 * 86400) :=
  ⟨shouldRegenerate_true_iff cached v now, shouldRegenerate_false_iff cached v now⟩

/-- Witness for C1: with no cache entry the decision is to regenerate. -/
theorem c1_should_regenerate_amended_witness :
    shouldRegenerate Option.none emptyVehicle 0 = .ok true :=
  ((c1_should_regenerate_amended Option.none emptyVehicle 0).1).mpr (Or.inl rfl)

/-- Counterexample to C1 as stated: an entry aged 30 days and one hour with
a matching fingerprint is served from cache (`.ok false`) although its age
exceeds 30 days, so the spec's rule demands regeneration; and an entry with
a matching fingerprint but NULL timestamp makes the code raise rather than
return true. -/
theorem c1_counterexample :
    shouldRegenerate (Option.some c1Entry) c1Vehicle c1Now = .ok false ∧
    c1SpecRegenerate (Option.some c1Entry) c1Vehicle c1Now ∧
    shouldRegenerate (Option.some c1EntryNoTs) c1Vehicle c1Now = .error .attributeError ∧
    c1SpecRegenerate (Option.some c1EntryNoTs) c1Vehicle c1Now := by
  have hcalc : calculateDataHash c1Vehicle = .ok c1Digest := rfl
  refine ⟨?_, ?_, ?_, ?_⟩
  · exact (shouldRegenerate_false_iff _ _ _).mpr
      ⟨c1Entry, c1Digest, 0, rfl, hcalc, rfl, rfl, by decide⟩
  · exact Or.inr ⟨c1Entry, rfl, Or.inr (Or.inr (Or.inr ⟨0, rfl, by decide⟩))⟩
  · exact shouldRegenerate_matched_no_ts c1EntryNoTs c1Vehicle c1Now c1Digest hcalc rfl rfl
  · exact Or.inr ⟨c1EntryNoTs, rfl, Or.inr (Or.inl rfl)⟩

/-- Claim C2: any two aggregates that agree on the normalized projection
get the same digest, and the digest is the lowercase-hex rendering (64 hex
characters, i.e. 256 bits) of the SHA-256 hash of the sorted-keys,
ISO-date-formatted serialization of that projection. -/
theorem c2_fingerprint_deterministic (A B : VehicleData) (p : HashInput)
    (hA : hashInputExc A = .ok p) (hB : hashInputExc B = .ok p) :
    calculateDataHash A = calculateDataHash B ∧
    calculateDataHash A = .ok (digestOfInput p) ∧
    digestOfInput p = sha256hex (serializeHashInput p) ∧
    (digestOfInput p).length = 64 ∧
    ∀ c ∈ (digestOfInput p).data, c ∈ "0123456789abcdef".data := by
  have key : ∀ V : VehicleData, hashInputExc V = .ok p →
      calculateDataHash V = .ok (digestOfInput p) := by
    intro V hV
    unfold hashInputExc at hV
    unfold calculateDataHash
    have hsplit : (∃ er, latestMileage V = .error er) ∨
        (∃ m, latestMileage V = .ok m) := by
      cases latestMileage V
      · exact Or.inl ⟨_, rfl⟩
      · exact Or.inr ⟨_, rfl⟩
    rcases hsplit with ⟨er, hm⟩ | ⟨m, hm⟩
    · rw [hm] at hV; exact Except.noConfusion hV
    · rw [hm] at hV
      simp only [Except.map, Except.ok.injEq] at hV
      rw [hm]
      simp only [Except.map, Except.ok.injEq]
      rw [hV]
  exact ⟨(key A hA).trans (key B hB).symm, key A hA, rfl, sha256hex_length _,
    fun c hc => sha256hex_mem _ c hc⟩

/-- Witness for C2: two aggregates differing only in `make` share the
projection and hence the digest. -/
theorem c2_fingerprint_deterministic_witness :
    hashInputExc c2VehicleA = .ok c2Proj ∧ hashInputExc c2VehicleB = .ok c2Proj ∧
    calculateDataHash c2VehicleA = calculateDataHash c2VehicleB :=
  ⟨rfl, rfl, (c2_fingerprint_deterministic c2VehicleA c2VehicleB c2Proj rfl rfl).1⟩

/-- Claim C3 (amended): the fingerprint's mileage component treats
MileageReading as authoritative.  With no mileage readings it equals the
spec's max across both collections (history max, the other collection being
empty); with readings present (and dated) it is the mileage of a reading
with maximal `reading_date` — not the overall maximum; with two or more
readings and a missing date the computation raises `TypeError`. -/
theorem c3_latest_mileage_amended (v : VehicleData) :
    (v.mileage_records = [] → latestMileage v = .ok (specMaxMileageAcrossBoth v))
    ∧ ((∀ x ∈ v.mileage_records, x.reading_date ≠ Option.none) →
       v.mileage_records ≠ [] →
       ∃ best, best ∈ v.mileage_records ∧ latestMileage v = .ok best.mileage ∧
         ∀ x ∈ v.mileage_records, readingDays x ≤ readingDays best)
    ∧ (1 < v.mileage_records.length →
       (∃ x ∈ v.mileage_records, x.reading_date = Option.none) →
       latestMileage v = .error .typeError) := by
  refine ⟨?_, ?_, ?_⟩
  · intro h
    unfold latestMileage specMaxMileageAcrossBoth
    simp only [h, List.filterMap_nil, List.append_nil]
    cases hh : v.history with
    | nil => simp [pyMaxIntList]
    | cons a l => simp
  · intro hall hne
    obtain ⟨r, rest, hrec⟩ : ∃ r rest, v.mileage_records = r :: rest := by
      cases hv : v.mileage_records with
      | nil => exact absurd hv hne
      | cons a l => exact ⟨a, l, rfl⟩
    rw [hrec] at hall
    have hb : r.reading_date ≠ Option.none := hall r (List.mem_cons_self r rest)
    have hr : ∀ x ∈ rest, x.reading_date ≠ Option.none :=
      fun x hx => hall x (List.mem_cons_of_mem r hx)
    obtain ⟨m, hm, hmem, hge, hallle⟩ := pyMaxBy_mem_max rest r hb hr
    refine ⟨m, ?_, ?_, ?_⟩
    · rw [hrec]
      rcases hmem with h | h
      · rw [h]; exact List.mem_cons_self r rest
      · exact List.mem_cons_of_mem r h
    · unfold latestMileage
      simp only [hrec]
      rw [hm]
      rfl
    · intro x hx
      rw [hrec] at hx
      rcases List.mem_cons.mp hx with h | h
      · rw [h]; exact hge
      · exact hallle x h
  · intro hlen hex
    obtain ⟨r, rest, hrec⟩ : ∃ r rest, v.mileage_records = r :: rest := by
      cases hv : v.mileage_records with
      | nil => rw [hv] at hlen; simp at hlen
      | cons a l => exact ⟨a, l, rfl⟩
    have hcond : (r.reading_date = Option.none ∧ rest ≠ []) ∨
        ∃ x ∈ rest, x.reading_date = Option.none := by
      obtain ⟨x, hx, hxn⟩ := hex
      rw [hrec] at hx
      rcases List.mem_cons.mp hx with h | h
      · refine Or.inl ⟨h ▸ hxn, ?_⟩
        intro hrnil
        rw [hrec, hrnil] at hlen
        simp at hlen
      · exact Or.inr ⟨x, h, hxn⟩
    unfold latestMileage
    simp only [hrec]
    rw [pyMaxBy_crash rest r hcond]
    rfl

/-- Witness for C3: the three cases at concrete aggregates. -/
theorem c3_latest_mileage_amended_witness :
    latestMileage emptyVehicle = .ok (specMaxMileageAcrossBoth emptyVehicle) ∧
    (∃ best, best ∈ c3Vehicle.mileage_records ∧
      latestMileage c3Vehicle = .ok best.mileage ∧
      ∀ x ∈ c3Vehicle.mileage_records, readingDays x ≤ readingDays best) ∧
    latestMileage c3CrashVehicle = .error .typeError :=
  ⟨(c3_latest_mileage_amended emptyVehicle).1 rfl,
   (c3_latest_mileage_amended c3Vehicle).2.1 (by decide) (by decide),
   (c3_latest_mileage_amended c3CrashVehicle).2.2 (by decide) (by decide)⟩

/-- Counterexample to C3 as stated: one mileage reading holding 100 and a
history record holding 200 fingerprint the reading's 100, not the overall
maximum 200. -/
theorem c3_counterexample :
    latestMileage c3Vehicle = .ok (Option.some 100) ∧
    specMaxMileageAcrossBoth c3Vehicle = Option.some 200 ∧
    hashInputExc c3Vehicle = .ok (hashInputWith c3Vehicle (Option.some 100)) ∧
    (hashInputWith c3Vehicle (Option.some 100)).basic.mileage = Option.some 100 ∧
    Option.some (100 : Int) ≠ Option.some (200 : Int) :=
  ⟨rfl, rfl, rfl, rfl, by decide⟩

/-- Claim C4 (amended): the model-output parser is total — it returns the
parsed object whenever the text it actually strips (only a leading
triple-backtick-`json` tag and a trailing triple backtick) parses as JSON,
and otherwise returns the degraded artifact embedding the raw text, with
`error_parsing=true` and every structured content section present. -/
theorem c4_output_parse_amended (s : String) :
    (∀ j, jsonLoads (cleanText s) = Option.some j → insightsOutputParse s = j)
    ∧ (jsonLoads (cleanText s) = Option.none →
        insightsOutputParse s = degradedArtifact s)
    ∧ pyDictGet (degradedArtifact s) "summary" =
        Option.some (.str ("Error: AI could not generate a structured summary. The raw output was: " ++ s))
    ∧ pyDictGet (degradedArtifact s) "error_parsing" = Option.some (.bool true)
    ∧ artifactKeys (degradedArtifact s) =
        ["summary", "key_insights", "owner_advice", "reliability_assessment",
         "value_assessment", "attention_items", "cost_insights",
         "technical_highlights", "error_parsing"] := by
  refine ⟨?_, ?_, rfl, rfl, rfl⟩
  · intro j h
    unfold insightsOutputParse
    rw [h]
  · intro h
    unfold insightsOutputParse
    rw [h]

/-- Witness for C4: plain prose yields the degraded artifact. -/
theorem c4_output_parse_amended_witness :
    jsonLoads (cleanText "plain prose") = Option.none ∧
    insightsOutputParse "plain prose" = degradedArtifact "plain prose" :=
  ⟨rfl, ((c4_output_parse_amended "plain prose").2.1) rfl⟩

/-- Counterexample to C4 as stated: valid JSON wrapped in a plain (untagged)
Markdown fence is not unwrapped by the code — stripping the fence per the
spec yields valid JSON, yet the parser returns the degraded artifact. -/
theorem c4_counterexample :
    insightsOutputParse c4Fenced = degradedArtifact c4Fenced ∧
    specStripCodeFence c4Fenced = "\x7b\"a\": 1\x7d" ∧
    jsonLoads (specStripCodeFence c4Fenced) =
      Option.some (.dict [("a", PyVal.int 1)]) ∧
    pyDictGet (insightsOutputParse c4Fenced) "error_parsing" =
      Option.some (.bool true) :=
  ⟨rfl, rfl, rfl, rfl⟩

/-- Claim C5 (amended): when the external call fails, `generate` returns the
templated fallback artifact built from the basic fields only, with every
contract field except `cached` present (the caller adds `cached` later),
`error=true`, and `model_version="fallback_system"` (not `"fallback"`). -/
theorem c5_fallback_amended (env : Env) (v : VehicleData) (e : PyErr)
    (h : env.llm = .error e) :
    generateVehicleInsights env v = fallbackInsights env.now v
    ∧ artifactKeys (fallbackInsights env.now v) =
        ["summary", "key_insights", "owner_advice", "reliability_assessment",
         "value_assessment", "attention_items", "cost_insights",
         "technical_highlights", "generated_at", "model_version", "error"]
    ∧ pyDictGet (fallbackInsights env.now v) "error" = Option.some (.bool true)
    ∧ pyDictGet (fallbackInsights env.now v) "model_version" =
        Option.some (.str "fallback_system")
    ∧ pyDictGet (fallbackInsights env.now v) "cached" = Option.none
    ∧ ∀ v' : VehicleData, v.basic = v'.basic →
        fallbackInsights env.now v = fallbackInsights env.now v' := by
  refine ⟨?_, rfl, rfl, rfl, rfl, ?_⟩
  · unfold generateVehicleInsights
    rw [h]
    split
    · rfl
    · rfl
  · intro v' hb
    unfold fallbackInsights
    rw [hb]

/-- Witness for C5 at a failing environment. -/
theorem c5_fallback_amended_witness :
    envLlmFails.llm = .error PyErr.typeError ∧
    generateVehicleInsights envLlmFails emptyVehicle =
      fallbackInsights envLlmFails.now emptyVehicle :=
  ⟨rfl, (c5_fallback_amended envLlmFails emptyVehicle PyErr.typeError rfl).1⟩

/-- Counterexample to C5 as stated: the fallback's `model_version` is
`"fallback_system"`, not `"fallback"`, and the `cached` key is absent. -/
theorem c5_counterexample :
    pyDictGet (fallbackInsights 0 emptyVehicle) "model_version" =
      Option.some (.str "fallback_system") ∧
    "fallback_system" ≠ "fallback" ∧
    pyDictGet (fallbackInsights 0 emptyVehicle) "cached" = Option.none :=
  ⟨rfl, by decide, rfl⟩

/-- Claim C6 (amended): on the miss path the fresh artifact is persisted iff
its `error` value is falsy AND the write routine itself succeeds — the two
derived-flag computations and the fingerprint do not raise and the commit
succeeds; an error artifact is never written; a written row is keyed by the
vehicle id. -/
theorem c6_persist_amended (env : Env) (v : VehicleData) :
    ((generateAndMaybeCache env v).2 ≠ Option.none ↔
      pyTruthy (pyDictGetD (generateVehicleInsights env v) "error" .none) = false ∧
      (∃ b1, checkHasIssues v (generateVehicleInsights env v) = .ok b1) ∧
      (∃ b2, checkNeedsAttention env.today v (generateVehicleInsights env v) = .ok b2) ∧
      (∃ dh, calculateDataHash v = .ok dh) ∧ env.dbCommitOk = true)
    ∧ (pyTruthy (pyDictGetD (generateVehicleInsights env v) "error" .none) = true →
        (generateAndMaybeCache env v).2 = Option.none)
    ∧ ∀ row, (generateAndMaybeCache env v).2 = Option.some row →
        row.vehicle_id = v.basic.id := by
  refine ⟨?_, ?_, ?_⟩
  · rw [generateAndMaybeCache_snd]
    by_cases ht : pyTruthy (pyDictGetD (generateVehicleInsights env v) "error" .none) = true
    · rw [if_pos ht]
      constructor
      · intro hne; exact absurd rfl hne
      · rintro ⟨hfalse, -⟩
        rw [ht] at hfalse
        exact Bool.noConfusion hfalse
    · rw [if_neg ht]
      have ht' : pyTruthy (pyDictGetD (generateVehicleInsights env v) "error" .none) = false := by
        simpa using ht
      constructor
      · intro hne
        exact ⟨ht', (cacheAiInsights_isSome_iff env v _).mp hne⟩
      · rintro ⟨-, hrest⟩
        exact (cacheAiInsights_isSome_iff env v _).mpr hrest
  · intro ht
    rw [generateAndMaybeCache_snd, if_pos ht]
  · intro row hrow
    rw [generateAndMaybeCache_snd] at hrow
    by_cases ht : pyTruthy (pyDictGetD (generateVehicleInsights env v) "error" .none) = true
    · rw [if_pos ht] at hrow; exact Option.noConfusion hrow
    · rw [if_neg ht] at hrow
      exact (cacheAiInsights_row env v _ row hrow).1

/-- Witness for C6: an error (fallback) artifact is not written. -/
theorem c6_persist_amended_witness :
    pyTruthy (pyDictGetD (generateVehicleInsights envLlmFails emptyVehicle) "error" .none) = true ∧
    (generateAndMaybeCache envLlmFails emptyVehicle).2 = Option.none :=
  ⟨rfl, (c6_persist_amended envLlmFails emptyVehicle).2.1 rfl⟩

/-- Counterexample to C6 as stated: a successfully generated, non-error
artifact for a vehicle with a NULL recall status is NOT persisted — the
`has_issues` derivation raises and the write is silently skipped. -/
theorem c6_counterexample :
    pyTruthy (pyDictGetD (generateVehicleInsights envOkEmptyJson c6Vehicle) "error" .none) = false ∧
    checkHasIssues c6Vehicle (generateVehicleInsights envOkEmptyJson c6Vehicle) =
      .error .attributeError ∧
    (generateAndMaybeCache envOkEmptyJson c6Vehicle).2 = Option.none :=
  ⟨rfl, rfl, rfl⟩

/-- Claim C7: on the miss path the returned artifact is exactly the fresh
artifact with `cached=false` stamped on it, whatever the persistence
outcome (the write result does not influence the returned value). -/
theorem c7_cached_false_regardless (env : Env) (v : VehicleData) :
    (generateAndMaybeCache env v).1 =
      pySetKey (generateVehicleInsights env v) "cached" (.bool false)
    ∧ pyDictGet ((generateAndMaybeCache env v).1) "cached" =
        Option.some (.bool false) := by
  refine ⟨rfl, ?_⟩
  obtain ⟨kvs, hk⟩ := generateVehicleInsights_dict env v
  rw [generateAndMaybeCache_fst, hk]
  simp only [pySetKey, pyDictGet]
  exact assocSet_lookup kvs "cached" (.bool false)

/-- Claim C8 (amended): when `_check_has_issues` returns (and the artifact's
attention items are a list or absent, per the contract), its value is the
spec's disjunction with the score condition guarded by Python truthiness
(a score of 0 is skipped); and any persisted row for a vehicle with a
total-loss claim has `has_issues=true` regardless of narrative content. -/
theorem c8_has_issues_amended :
    (∀ (v : VehicleData) (ins : PyVal) (b : Bool),
      attentionIsListOrAbsent ins = true →
      checkHasIssues v ins = .ok b → b = hasIssuesSpec v ins)
    ∧ ∀ (env : Env) (v : VehicleData),
        v.insurance_claims.any isTotalLossClaim = true →
        ((generateAndMaybeCache env v).2.all (fun r => r.has_issues)) = true := by
  refine ⟨checkHasIssues_ok, ?_⟩
  intro env v hcl
  rw [generateAndMaybeCache_snd]
  by_cases ht : pyTruthy (pyDictGetD (generateVehicleInsights env v) "error" .none) = true
  · rw [if_pos ht]; rfl
  · rw [if_neg ht]
    have hsplit : cacheAiInsights env v (generateVehicleInsights env v) = Option.none ∨
        ∃ row, cacheAiInsights env v (generateVehicleInsights env v) = Option.some row := by
      cases cacheAiInsights env v (generateVehicleInsights env v)
      · exact Or.inl rfl
      · exact Or.inr ⟨_, rfl⟩
    rcases hsplit with hw | ⟨row, hw⟩
    · rw [hw]; rfl
    · rw [hw]
      obtain ⟨-, b1, hb1, hhi⟩ := cacheAiInsights_row env v _ row hw
      rw [checkHasIssues_total_loss v _ b1 hcl hb1] at hhi
      simp [Option.all, hhi]

/-- Witness for C8: the characterization at an empty artifact and the
total-loss scenario at a concrete pipeline run. -/
theorem c8_has_issues_amended_witness :
    attentionIsListOrAbsent (PyVal.dict []) = true ∧
    checkHasIssues emptyVehicle (PyVal.dict []) = .ok false ∧
    false = hasIssuesSpec emptyVehicle (PyVal.dict []) ∧
    c8TotalLossVehicle.insurance_claims.any isTotalLossClaim = true ∧
    ((generateAndMaybeCache envOkEmptyJson c8TotalLossVehicle).2.all
      (fun r => r.has_issues)) = true :=
  ⟨rfl, rfl, c8_has_issues_amended.1 emptyVehicle (PyVal.dict []) false rfl rfl, rfl,
   c8_has_issues_amended.2 envOkEmptyJson c8TotalLossVehicle rfl⟩

/-- Counterexample to C8 as stated: a numeric reliability score of 0 is at
most 3, so the claim's disjunction holds, yet `_check_has_issues` returns
false because 0 is falsy in Python. -/
theorem c8_counterexample :
    checkHasIssues emptyVehicle c8ScoreZero = .ok false ∧
    hasIssuesClaim emptyVehicle c8ScoreZero = true ∧
    pyTruthy (PyVal.int 0) = false :=
  ⟨rfl, rfl, rfl⟩

/-- Claim C9: the refresh route deletes the vehicle's cache row; running it
twice equals running it once, and after it the lookup misses, so
`should_regenerate_insights` fires its no-entry branch. -/
theorem c9_invalidate_idempotent (vehicles : List Int) (rows : List CacheEntry)
    (vid : Int) (v : VehicleData) (now : Int) :
    refreshInsightsRoute vehicles (refreshInsightsRoute vehicles rows vid).rows vid
      = refreshInsightsRoute vehicles rows vid
    ∧ (vid ∈ vehicles →
        lookupCache (refreshInsightsRoute vehicles rows vid).rows vid = Option.none ∧
        shouldRegenerate (lookupCache (refreshInsightsRoute vehicles rows vid).rows vid)
          v now = .ok true) := by
  constructor
  · by_cases hm : vid ∈ vehicles
    · simp only [refreshInsightsRoute, hm, if_true]
      rw [invalidate_idem]
    · simp only [refreshInsightsRoute, hm, if_false]
  · intro hm
    have hl : lookupCache (refreshInsightsRoute vehicles rows vid).rows vid = Option.none := by
      simp only [refreshInsightsRoute, hm, if_true]
      exact lookup_invalidate rows vid
    exact ⟨hl, by rw [hl]; rfl⟩

/-- Witness for C9 at a one-row cache. -/
theorem c9_invalidate_idempotent_witness :
    lookupCache (refreshInsightsRoute [1] c9Rows 1).rows 1 = Option.none ∧
    shouldRegenerate (lookupCache (refreshInsightsRoute [1] c9Rows 1).rows 1)
      emptyVehicle 0 = .ok true :=
  (c9_invalidate_idempotent [1] c9Rows 1 emptyVehicle 0).2 (by decide)

/-- Claim C10 is right about the intent and the code breaks it: the flag
derivations raise on legitimate aggregate/artifact values — a history
record with a NULL `event_type` (`None.upper()`), a non-string attention
item — and a raised flag derivation silently skips the cache write (shown
here via a NULL recall status reaching `_cache_ai_insights`). -/
theorem c10_flag_derivation_crash :
    checkHasIssues c10Vehicle (PyVal.dict []) = .error .attributeError ∧
    checkNeedsAttention ⟨2024, 1, 1⟩ emptyVehicle c10BadItems = .error .typeError ∧
    pyTruthy (pyDictGetD (generateVehicleInsights envOkEmptyJson c6Vehicle) "error" .none) = false ∧
    (generateAndMaybeCache envOkEmptyJson c6Vehicle).2 = Option.none :=
  ⟨rfl, rfl, rfl, rfl⟩
